import Mathlib

/-!
# Frontend.cpp: building a single translation unit

A shallow embedding of `lib/Frontend/Frontend.cpp`: the static helper
`getModuleIdentifier` and the entry point `swift::buildSingleTranslationUnit`.

Conventions of the embedding.

* Pointers to heap objects (`Decl*`, `Component*`, `TranslationUnit*`,
  `SILModule*`) are natural-number addresses; a nullable pointer is an `Option`.
* The functions the file calls but does not define (`llvm::sys::path::stem`,
  `Lexer::isIdentifier`, the buffer store, `performAutoImport`,
  `parseIntoTranslationUnit`, `performTypeChecking`) are fields of `Collaborators`.
  Whatever state they keep between calls is the abstract world state `σ`.
* Every call to such a function is appended to a call log (`Event`), so that the
  order and the arguments of the calls can be stated.
* `assert` is taken as enabled: a failing assertion stops the function, which then
  returns nothing.
* `unsigned` cursors are natural numbers: buffer sizes and declaration counts are
  taken to stay below `2^32`.
* The `do ... while` pump is given a fuel argument, an upper bound on the number of
  iterations; running out of fuel is reported as `Outcome.outOfFuel`.
-/

namespace swift

/-- Modelled from the spec: the enumeration `TranslationUnit::TUKind`, whose declaration
(`swift/AST/Module.h`) is missing. The spec gives the unit kind as an "enum: `Library`,
`Main`, `IRBuffer`"; `IRBuffer` is the kind the source names `TranslationUnit::SIL`. -/
inductive TUKind where
  | Library
  | Main
  | SIL
  deriving DecidableEq, Repr

/-- A `Decl*`: declarations are referred to by address, so a check that mutates a
declaration in place leaves the unit's sequence of addresses as it is. -/
abbrev Decl := Nat

/-- A `SILModule*` that is not null. -/
abbrev SILModule := Nat

/-- An `Identifier`: a uniqued string, represented by its text. -/
structure Identifier where
  str : String
  deriving DecidableEq, Repr

/-- A `SourceLoc`; the default-constructed location is the unknown one. -/
inductive SourceLoc where
  | unknown
  | known (offset : Nat)
  deriving DecidableEq, Repr

/-- The diagnostic kinds this file emits. -/
inductive Diag where
  | bad_module_name
  deriving DecidableEq, Repr

/-- One call of `Context.Diags.diagnose(Loc, ID, Arg)`. -/
structure Diagnostic where
  Loc : SourceLoc
  ID : Diag
  Arg : String
  deriving DecidableEq, Repr

/-- The part of `TranslationUnit` this file reads and writes. -/
structure TranslationUnit where
  Name : Identifier
  Comp : Nat
  Kind : TUKind
  HasBuiltinModuleAccess : Bool
  Decls : List Decl
  deriving DecidableEq, Repr

/-- The part of `ASTContext` this file reads and writes: the diagnostics emitted so
far (oldest first), the `LoadedModules` string map (module name to unit address) and
the number of objects allocated in the context, which is the next free address. -/
structure ASTContext where
  Diags : List Diagnostic
  LoadedModules : List (String × Nat)
  NumAllocated : Nat
  deriving DecidableEq, Repr

/-- `Context.getIdentifier(Str)`. -/
def ASTContext.getIdentifier (_Context : ASTContext) (Str : String) : Identifier :=
  { str := Str }

/-- `Context.Diags.diagnose(Loc, ID, Arg)`: appends one diagnostic. -/
def ASTContext.diagnose (Context : ASTContext) (Loc : SourceLoc) (ID : Diag)
    (Arg : String) : ASTContext :=
  { Context with Diags := Context.Diags ++ [{ Loc := Loc, ID := ID, Arg := Arg }] }

/-- `Context.Allocate`: hands out the next free address. -/
def ASTContext.allocate (Context : ASTContext) : Nat × ASTContext :=
  (Context.NumAllocated, { Context with NumAllocated := Context.NumAllocated + 1 })

/-- `Context.LoadedModules[Key] = Addr`: `operator[]` of a string map, which inserts
the key or overwrites the entry already stored under it. -/
def ASTContext.setLoadedModule (Context : ASTContext) (Key : String) (Addr : Nat) :
    ASTContext :=
  { Context with
    LoadedModules := (Key, Addr) :: Context.LoadedModules.filter (fun kv => kv.1 != Key) }

/-- Lookup in `Context.LoadedModules`. -/
def ASTContext.lookupModule (Context : ASTContext) (Key : String) : Option Nat :=
  Context.LoadedModules.lookup Key

/-- What one call of `parseIntoTranslationUnit` leaves behind. -/
structure ParseResult (σ : Type) where
  World : σ
  Added : List Decl
  BufferOffset : Nat

/-- Modelled from the spec: the functions `Frontend.cpp` calls and does not define, as
parameters. The bodies of `performAutoImport`, `parseIntoTranslationUnit` and
`performTypeChecking` are missing; their effect on the unit is the one the collaborator
table gives them. The parser "mutates offsetCursor and the unit's declaration sequence"
by appending "zero or more declarations", so it returns the declarations to append and
the new offset; auto-import "appends implicit import declarations" to the unit, so it
returns the declarations to append (possibly none); the checker "mutates declarations
in place", so it leaves the sequence of declaration addresses alone. All three may
read the unit and change the world. `stem` is `llvm::sys::path::stem`, `isIdentifier`
is `Lexer::isIdentifier`, and `getBufferSize` is
`Context.SourceMgr.getMemoryBuffer(ID)->getBufferSize()`. The parser's fourth parameter
is 0 at both call sites and is left out. -/
structure Collaborators (σ : Type) where
  stem : String → String
  isIdentifier : String → Bool
  getBufferSize : Nat → Nat
  performAutoImport : σ → TranslationUnit → σ × List Decl
  parseIntoTranslationUnit :
    σ → TranslationUnit → Nat → Nat → Option SILModule → ParseResult σ
  performTypeChecking : σ → TranslationUnit → Nat → σ

/-- One call of `parseIntoTranslationUnit`, with what it returned: the unit as passed,
the buffer, `*BufferOffset` on entry, the SIL parser state passed (`none` for a null
pointer), the declarations the call appended and `*BufferOffset` on return. -/
structure ParseCall where
  TU : TranslationUnit
  BufferID : Nat
  BufferOffset : Nat
  SIL : Option SILModule
  Added : List Decl
  EndOffset : Nat
  deriving DecidableEq, Repr

/-- One call of `performTypeChecking(TU, StartElem)`: the unit as passed and the index
of the first declaration to check. -/
structure CheckCall where
  TU : TranslationUnit
  StartElem : Nat
  deriving DecidableEq, Repr

/-- The log of calls to the collaborators. -/
inductive Event where
  | performAutoImport (TU : TranslationUnit) (Added : List Decl)
  | getMemoryBuffer (BufferID : Nat)
  | parseIntoTranslationUnit (Call : ParseCall)
  | performTypeChecking (Call : CheckCall)
  deriving DecidableEq, Repr

/-- How a call of `buildSingleTranslationUnit` ends. -/
inductive Outcome where
  | returned
  | assertionFailed (Msg : String)
  | outOfFuel
  deriving DecidableEq, Repr

/-- `TU->Decls` after a collaborator appended `Added`. -/
def TranslationUnit.append (TU : TranslationUnit) (Added : List Decl) : TranslationUnit :=
  { TU with Decls := TU.Decls ++ Added }

/-- The function `getModuleIdentifier` (lines 31-55). -/
def getModuleIdentifier {σ : Type} (E : Collaborators σ) (OutputName : String)
    (Context : ASTContext) (moduleKind : TUKind) : Identifier × ASTContext :=
  if OutputName = "<stdin>" then
    (Context.getIdentifier "stdin", Context)
  else
    let moduleName := E.stem OutputName
    if E.isIdentifier moduleName = false then
      if moduleKind = TUKind.Main then
        (Context.getIdentifier "main", Context)
      else
        let Context1 := Context.diagnose SourceLoc.unknown Diag.bad_module_name moduleName
        (Context1.getIdentifier "bad", Context1)
    else
      (Context.getIdentifier moduleName, Context)

/-- The state `buildSingleTranslationUnit` threads through its two parse loops: the
collaborators' world, the unit under construction, the call log, and the two pump
cursors (unused by the multiple-file loop). -/
structure BuildState (σ : Type) where
  World : σ
  TU : TranslationUnit
  Trace : List Event
  BufferOffset : Nat
  CurTUElem : Nat

/-- The body of the `for` loop over the files (lines 88-94), up to the assertion:
query the buffer, then parse it into the unit from offset 0. The call leaves the
parser's trailing parameters to their defaults, so no SIL parser state is passed. -/
def parseFile {σ : Type} (E : Collaborators σ) (BufferID : Nat) (s : BuildState σ) :
    BuildState σ :=
  let r := E.parseIntoTranslationUnit s.World s.TU BufferID 0 none
  { World := r.World
    TU := s.TU.append r.Added
    Trace := s.Trace ++
      [Event.getMemoryBuffer BufferID,
       Event.parseIntoTranslationUnit
         { TU := s.TU, BufferID := BufferID, BufferOffset := 0, SIL := none,
           Added := r.Added, EndOffset := r.BufferOffset }]
    BufferOffset := r.BufferOffset
    CurTUElem := s.CurTUElem }

/-- The loop of lines 87-95: parse each file into the unit; `false` is returned, with
the state reached, as soon as the assertion
`BufferOffset == Buffer->getBufferSize()` fails. -/
def parseAllFiles {σ : Type} (E : Collaborators σ) :
    List Nat → BuildState σ → BuildState σ × Bool
  | [], s => (s, true)
  | BufferID :: rest, s =>
    let s1 := parseFile E BufferID s
    if s1.BufferOffset = E.getBufferSize BufferID then parseAllFiles E rest s1
    else (s1, false)

/-- The body of the `do ... while` loop (lines 118-122). The parser gets the SIL parser
state exactly when `SIL` is not null; the state, built from `SIL` on line 108, is
identified with the module. -/
def pumpBody {σ : Type} (E : Collaborators σ) (ParseOnly : Bool) (BufferID : Nat)
    (SIL : Option SILModule) (s : BuildState σ) : BuildState σ :=
  let r := E.parseIntoTranslationUnit s.World s.TU BufferID s.BufferOffset SIL
  let TU1 := s.TU.append r.Added
  let parsed := Event.parseIntoTranslationUnit
    { TU := s.TU, BufferID := BufferID, BufferOffset := s.BufferOffset, SIL := SIL,
      Added := r.Added, EndOffset := r.BufferOffset }
  if ParseOnly then
    { World := r.World, TU := TU1, Trace := s.Trace ++ [parsed],
      BufferOffset := r.BufferOffset, CurTUElem := TU1.Decls.length }
  else
    { World := E.performTypeChecking r.World TU1 s.CurTUElem, TU := TU1,
      Trace := s.Trace ++
        [parsed, Event.performTypeChecking { TU := TU1, StartElem := s.CurTUElem }],
      BufferOffset := r.BufferOffset, CurTUElem := TU1.Decls.length }

/-- The `do ... while (BufferOffset != Buffer->getBufferSize())` loop (lines 113-123),
cut off after `fuel` iterations; `false` is returned when the fuel ran out with the
loop still going. -/
def pumpLoop {σ : Type} (E : Collaborators σ) (ParseOnly : Bool) (BufferID : Nat)
    (SIL : Option SILModule) (Size : Nat) : Nat → BuildState σ → BuildState σ × Bool
  | 0, s => (s, false)
  | fuel + 1, s =>
    let s1 := pumpBody E ParseOnly BufferID SIL s
    if s1.BufferOffset ≠ Size then pumpLoop E ParseOnly BufferID SIL Size fuel s1
    else (s1, true)

/-- The state after `n` runs of the loop body of the pump, the loop condition left
aside: the states the pump goes through for as long as it keeps going. -/
def pumpIter {σ : Type} (E : Collaborators σ) (ParseOnly : Bool) (BufferID : Nat)
    (SIL : Option SILModule) : Nat → BuildState σ → BuildState σ
  | 0, s => s
  | n + 1, s => pumpIter E ParseOnly BufferID SIL n (pumpBody E ParseOnly BufferID SIL s)

/-- Modelled from the spec: the default value of the `StartElem` parameter of
`performTypeChecking`, whose declaration (`swift/Subsystems.h`) is missing. The call
`performTypeChecking(TU)` of line 99 is to check "the complete accumulated declaration
sequence", that is, from index 0. -/
abbrev defaultStartElem : Nat := 0

/-- What a call of `buildSingleTranslationUnit` leaves behind: the context, the
collaborators' world, the call log, the address and the contents of the unit it
allocated, the last value of the byte-offset cursor, and how the call ended. -/
structure BuildResult (σ : Type) where
  Context : ASTContext
  World : σ
  Trace : List Event
  Addr : Nat
  TU : TranslationUnit
  BufferOffset : Nat
  Ret : Outcome

/-- The unit handed back to the caller, if the call returned. -/
def BuildResult.returnedUnit {σ : Type} (r : BuildResult σ) : Option TranslationUnit :=
  match r.Ret with
  | Outcome.returned => some r.TU
  | _ => none

/-- Lines 67-72 of `buildSingleTranslationUnit`: allocate the component, resolve the
module identifier, allocate the unit, enter it in `Context.LoadedModules` under the
identifier's text and set its `HasBuiltinModuleAccess`. Gives the context, the unit's
address and the unit. -/
def createTranslationUnit {σ : Type} (E : Collaborators σ) (Context : ASTContext)
    (OutputName : String) (AllowBuiltinModule : Bool) (Kind : TUKind) :
    ASTContext × Nat × TranslationUnit :=
  let Comp := Context.allocate
  let ID := getModuleIdentifier E OutputName Comp.2 Kind
  let Addr := ID.2.allocate
  let TU : TranslationUnit :=
    { Name := ID.1, Comp := Comp.1, Kind := Kind, HasBuiltinModuleAccess := false,
      Decls := [] }
  let Context1 := Addr.2.setLoadedModule ID.1.str Addr.1
  (Context1, Addr.1, { TU with HasBuiltinModuleAccess := AllowBuiltinModule })

/-- Lines 74-78 of `buildSingleTranslationUnit`: the auto-import, skipped in SIL mode
and when no semantic analysis will follow; gives the state the parse loops start in,
with both cursors at 0. -/
def autoImport {σ : Type} (E : Collaborators σ) (World : σ) (TU : TranslationUnit)
    (ParseOnly : Bool) (Kind : TUKind) : BuildState σ :=
  if Kind ≠ TUKind.SIL ∧ ParseOnly = false then
    let r := E.performAutoImport World TU
    { World := r.1, TU := TU.append r.2, Trace := [Event.performAutoImport TU r.2],
      BufferOffset := 0, CurTUElem := 0 }
  else
    { World := World, TU := TU, Trace := [], BufferOffset := 0, CurTUElem := 0 }

/-- The end of a call of `buildSingleTranslationUnit` in state `s` with outcome `Ret`. -/
def finish {σ : Type} (Context : ASTContext) (Addr : Nat) (s : BuildState σ)
    (Ret : Outcome) : BuildResult σ :=
  { Context := Context, World := s.World, Trace := s.Trace, Addr := Addr, TU := s.TU,
    BufferOffset := s.BufferOffset, Ret := Ret }

/-- The function `swift::buildSingleTranslationUnit` (lines 59-126). Each `assert` that
fails ends the call with its message and without a unit. -/
def buildSingleTranslationUnit {σ : Type} (E : Collaborators σ) (fuel : Nat)
    (Context : ASTContext) (World : σ) (OutputName : String) (BufferIDs : List Nat)
    (ParseOnly : Bool) (AllowBuiltinModule : Bool) (Kind : TUKind)
    (SIL : Option SILModule) : BuildResult σ :=
  let created := createTranslationUnit E Context OutputName AllowBuiltinModule Kind
  let Context1 := created.1
  let Addr := created.2.1
  let s0 := autoImport E World created.2.2 ParseOnly Kind
  if BufferIDs.length > 1 then
    if Kind ≠ TUKind.Library then
      finish Context1 Addr s0
        (Outcome.assertionFailed "Multiple file mode can't handle early returns from the parser")
    else
      let parsed := parseAllFiles E BufferIDs s0
      if parsed.2 = false then
        finish Context1 Addr parsed.1 (Outcome.assertionFailed "Parser returned early?")
      else if ParseOnly then
        finish Context1 Addr parsed.1 Outcome.returned
      else
        let s := parsed.1
        finish Context1 Addr
          { s with
            World := E.performTypeChecking s.World s.TU defaultStartElem
            Trace := s.Trace ++
              [Event.performTypeChecking { TU := s.TU, StartElem := defaultStartElem }] }
          Outcome.returned
  else
    match BufferIDs with
    | [BufferID] =>
      let s1 := { s0 with Trace := s0.Trace ++ [Event.getMemoryBuffer BufferID] }
      let pumped := pumpLoop E ParseOnly BufferID SIL (E.getBufferSize BufferID) fuel s1
      if pumped.2 then finish Context1 Addr pumped.1 Outcome.returned
      else finish Context1 Addr pumped.1 Outcome.outOfFuel
    | _ =>
      finish Context1 Addr s0 (Outcome.assertionFailed "This mode only allows one input")

/-- The state in which a call with the single buffer `BufferID` enters the pump loop
(lines 67-78 and 105-112 done). -/
def pumpStart {σ : Type} (E : Collaborators σ) (Context : ASTContext) (World : σ)
    (OutputName : String) (BufferID : Nat) (ParseOnly AllowBuiltinModule : Bool)
    (Kind : TUKind) : BuildState σ :=
  let s0 := autoImport E World
    (createTranslationUnit E Context OutputName AllowBuiltinModule Kind).2.2 ParseOnly Kind
  { s0 with Trace := s0.Trace ++ [Event.getMemoryBuffer BufferID] }

/-- The arguments of one call of `buildSingleTranslationUnit`, the context aside, and
the fuel of its pump. -/
structure BuildRequest where
  fuel : Nat
  OutputName : String
  BufferIDs : List Nat
  ParseOnly : Bool
  AllowBuiltinModule : Bool
  Kind : TUKind
  SIL : Option SILModule

/-- Two calls of `buildSingleTranslationUnit` in one session: the second call starts
from the context and the world the first call left behind. Gives both results. -/
def buildTwo {σ : Type} (E : Collaborators σ) (Context : ASTContext) (World : σ)
    (q1 q2 : BuildRequest) : BuildResult σ × BuildResult σ :=
  let r1 := buildSingleTranslationUnit E q1.fuel Context World q1.OutputName q1.BufferIDs
    q1.ParseOnly q1.AllowBuiltinModule q1.Kind q1.SIL
  (r1, buildSingleTranslationUnit E q2.fuel r1.Context r1.World q2.OutputName q2.BufferIDs
    q2.ParseOnly q2.AllowBuiltinModule q2.Kind q2.SIL)

/-- The call as it runs through the multiple-file branch (lines 83-100), here entered
whatever the number of buffers: what `buildSingleTranslationUnit` would do with a buffer
list if the list took that branch. -/
def buildBatch {σ : Type} (E : Collaborators σ) (Context : ASTContext) (World : σ)
    (OutputName : String) (BufferIDs : List Nat) (ParseOnly : Bool)
    (AllowBuiltinModule : Bool) (Kind : TUKind) : BuildResult σ :=
  let created := createTranslationUnit E Context OutputName AllowBuiltinModule Kind
  let s0 := autoImport E World created.2.2 ParseOnly Kind
  if Kind ≠ TUKind.Library then
    finish created.1 created.2.1 s0
      (Outcome.assertionFailed "Multiple file mode can't handle early returns from the parser")
  else
    let parsed := parseAllFiles E BufferIDs s0
    if parsed.2 = false then
      finish created.1 created.2.1 parsed.1 (Outcome.assertionFailed "Parser returned early?")
    else if ParseOnly then
      finish created.1 created.2.1 parsed.1 Outcome.returned
    else
      let s := parsed.1
      finish created.1 created.2.1
        { s with
          World := E.performTypeChecking s.World s.TU defaultStartElem
          Trace := s.Trace ++
            [Event.performTypeChecking { TU := s.TU, StartElem := defaultStartElem }] }
        Outcome.returned

/-! ## Reading the call log -/

/-- The parser call an event records, if it is one. -/
def Event.asParseCall : Event → Option ParseCall
  | Event.parseIntoTranslationUnit c => some c
  | _ => none

/-- The checker call an event records, if it is one. -/
def Event.asCheckCall : Event → Option CheckCall
  | Event.performTypeChecking c => some c
  | _ => none

/-- The declarations an auto-import call appended, if the event is one. -/
def Event.asAutoImport : Event → Option (List Decl)
  | Event.performAutoImport _ Added => some Added
  | _ => none

/-- The buffer an event queries the buffer store for, if it is such a query. -/
def Event.asBufferQuery : Event → Option Nat
  | Event.getMemoryBuffer BufferID => some BufferID
  | _ => none

/-- The parser calls of a log, in order. -/
def parseCalls (Trace : List Event) : List ParseCall :=
  Trace.filterMap Event.asParseCall

/-- The checker calls of a log, in order. -/
def checkCalls (Trace : List Event) : List CheckCall :=
  Trace.filterMap Event.asCheckCall

/-- The auto-import calls of a log, each given by the declarations it appended. -/
def autoImportCalls (Trace : List Event) : List (List Decl) :=
  Trace.filterMap Event.asAutoImport

/-- The buffer-store queries of a log, in order. -/
def bufferQueries (Trace : List Event) : List Nat :=
  Trace.filterMap Event.asBufferQuery

/-- The declarations the auto-import calls of a log appended, in order. -/
def importedDecls (Trace : List Event) : List Decl :=
  (autoImportCalls Trace).flatten

/-- The declarations the parser calls of a log appended, in call order. -/
def parsedDecls (Trace : List Event) : List Decl :=
  ((parseCalls Trace).map (fun c => c.Added)).flatten

/-- The start index of each checker call of a log: the call covers the declarations of
its unit from this index on. -/
def checkStarts (Trace : List Event) : List Nat :=
  (checkCalls Trace).map (fun c => c.StartElem)

/-- The number of declarations of the unit at each checker call of a log: the index at
which the range covered by the call ends. -/
def checkEnds (Trace : List Event) : List Nat :=
  (checkCalls Trace).map (fun c => c.TU.Decls.length)

/-- The number of declarations of the unit just before each parser call of a log. -/
def declCountsBeforeParse (Trace : List Event) : List Nat :=
  (parseCalls Trace).map (fun c => c.TU.Decls.length)

/-- What the caller asked of the parser in a call and what the parser gave back: all of
a parser call but the unit it was passed. -/
def ParseCall.signature (c : ParseCall) : Nat × Nat × Option SILModule × List Decl × Nat :=
  (c.BufferID, c.BufferOffset, c.SIL, c.Added, c.EndOffset)

/-- The unit `TU2` is the unit `TU` with declarations put in front of its own: the two
have the same name, component, kind and builtin-access flag. This is how the unit of a
build without `ParseOnly` stands to the unit of the same build with it, the
declarations in front being the auto-imported ones. -/
def ImportsAhead (TU TU2 : TranslationUnit) : Prop :=
  ∃ Imports : List Decl, TU2 = { TU with Decls := Imports ++ TU.Decls }

/-- Two states of a build, the first reached with `ParseOnly` and the second without,
that agree for the parser: the worlds are related by `R`, the second unit is the first
with declarations in front, the byte-offset cursors are equal and the parser calls made
so far have the same signatures. -/
def ParseSim {σ : Type} (R : σ → σ → Prop) (s s2 : BuildState σ) : Prop :=
  R s.World s2.World ∧ ImportsAhead s.TU s2.TU ∧ s.BufferOffset = s2.BufferOffset ∧
    (parseCalls s.Trace).map ParseCall.signature
      = (parseCalls s2.Trace).map ParseCall.signature

/-- The invariant of the file loop once the files `done` are parsed: the unit holds
the auto-imported declarations followed by the parsed ones, the parser was called once
per file of `done`, in order, each time from offset 0 without SIL state and up to the
size of the file, and the checker was not called. -/
def BatchInv {σ : Type} (E : Collaborators σ) (done : List Nat) (s : BuildState σ) : Prop :=
  s.TU.Decls = importedDecls s.Trace ++ parsedDecls s.Trace ∧
  (parseCalls s.Trace).map (fun c => c.BufferID) = done ∧
  (∀ c ∈ parseCalls s.Trace,
    c.EndOffset = E.getBufferSize c.BufferID ∧ c.BufferOffset = 0 ∧ c.SIL = none) ∧
  checkCalls s.Trace = []

/-- Modelled from the spec: what is assumed of `Lexer::isIdentifier`, whose body
(`lib/Parse/Lexer.cpp`) is missing and whose grammar the spec leaves out. The spec
calls the three names the resolver substitutes "a fixed identifier", "a fixed fallback
identifier" and "a fixed error-sentinel identifier": the predicate accepts `stdin`,
`main` and `bad`. -/
def AcceptsFixedNames {σ : Type} (E : Collaborators σ) : Prop :=
  E.isIdentifier "stdin" = true ∧ E.isIdentifier "main" = true ∧
    E.isIdentifier "bad" = true

/-! ## Concrete collaborators, for running the model -/

/-- A parser that replays a script, one entry (declarations appended, offset on return)
per call, and consumes the whole buffer once the script is used up; auto-import appends
`Imports`; the stem is the text before the first dot and an identifier is a non-empty
run of letters. -/
def scripted (Sizes : Nat → Nat) (Imports : List Decl) :
    Collaborators (List (List Decl × Nat)) :=
  { stem := fun s => String.mk (s.data.takeWhile (fun c => c != '.'))
    isIdentifier := fun s => s.data.all Char.isAlpha && !s.data.isEmpty
    getBufferSize := Sizes
    performAutoImport := fun w _ => (w, Imports)
    parseIntoTranslationUnit := fun w _ BufferID _ _ =>
      match w with
      | [] => { World := [], Added := [], BufferOffset := Sizes BufferID }
      | (Added, EndOffset) :: rest => { World := rest, Added := Added, BufferOffset := EndOffset }
    performTypeChecking := fun w _ _ => w }

/-- A parser that consumes two bytes per call (fewer at the end of the buffer) and
appends one declaration per call, named after the offset it started at. -/
def stepping (Sizes : Nat → Nat) (Imports : List Decl) : Collaborators Unit :=
  { stem := fun s => String.mk (s.data.takeWhile (fun c => c != '.'))
    isIdentifier := fun s => s.data.all Char.isAlpha && !s.data.isEmpty
    getBufferSize := Sizes
    performAutoImport := fun w _ => (w, Imports)
    parseIntoTranslationUnit := fun w _ BufferID BufferOffset _ =>
      { World := w, Added := [BufferOffset],
        BufferOffset := min (BufferOffset + 2) (Sizes BufferID) }
    performTypeChecking := fun w _ _ => w }

/-- An empty context. -/
def emptyContext : ASTContext :=
  { Diags := [], LoadedModules := [], NumAllocated := 0 }

/-- A parser that reads what the checker left in the world, here the number of checker
calls made so far: its first call appends declaration 1 and stops at offset 2; a later
call appends declaration 2 and goes to the end of the buffer when nothing has been
checked yet, and one byte further otherwise. Auto-import appends nothing. -/
def checkAware (Sizes : Nat → Nat) : Collaborators Nat :=
  { stem := fun s => String.mk (s.data.takeWhile (fun c => c != '.'))
    isIdentifier := fun s => s.data.all Char.isAlpha && !s.data.isEmpty
    getBufferSize := Sizes
    performAutoImport := fun w _ => (w, [])
    parseIntoTranslationUnit := fun w _ BufferID BufferOffset _ =>
      if BufferOffset = 0 then { World := w, Added := [1], BufferOffset := 2 }
      else if w = 0 then { World := w, Added := [2], BufferOffset := Sizes BufferID }
      else { World := w, Added := [2], BufferOffset := min (BufferOffset + 1) (Sizes BufferID) }
    performTypeChecking := fun w _ _ => w + 1 }

/-- A parser that reads the kind of the unit it is passed: in a `Main` unit it consumes
two bytes per call (fewer at the end of the buffer), in any other unit it consumes the
whole buffer in one call; each call appends one declaration, named after the offset it
started at. -/
def kindAware (Sizes : Nat → Nat) (Imports : List Decl) : Collaborators Unit :=
  { stem := fun s => String.mk (s.data.takeWhile (fun c => c != '.'))
    isIdentifier := fun s => s.data.all Char.isAlpha && !s.data.isEmpty
    getBufferSize := Sizes
    performAutoImport := fun w _ => (w, Imports)
    parseIntoTranslationUnit := fun w TU BufferID BufferOffset _ =>
      if TU.Kind = TUKind.Main then
        { World := w, Added := [BufferOffset],
          BufferOffset := min (BufferOffset + 2) (Sizes BufferID) }
      else { World := w, Added := [BufferOffset], BufferOffset := Sizes BufferID }
    performTypeChecking := fun w _ _ => w }

/-! ## The two loops: invariants -/

section Loops

variable {σ : Type} (E : Collaborators σ)

/-- An invariant of the pump's loop head holds of the state the pump was cut off in,
and of the state the last iteration started from when the pump ran to its end. -/
theorem pumpLoop_inv (ParseOnly : Bool) (BufferID : Nat) (SIL : Option SILModule)
    (Size : Nat) (Inv : BuildState σ → Prop)
    (hstep : ∀ s, Inv s → (pumpBody E ParseOnly BufferID SIL s).BufferOffset ≠ Size →
      Inv (pumpBody E ParseOnly BufferID SIL s)) :
    ∀ (fuel : Nat) (s : BuildState σ), Inv s →
      ((pumpLoop E ParseOnly BufferID SIL Size fuel s).2 = false →
        Inv (pumpLoop E ParseOnly BufferID SIL Size fuel s).1) ∧
      ((pumpLoop E ParseOnly BufferID SIL Size fuel s).2 = true →
        ∃ t, Inv t ∧
          (pumpLoop E ParseOnly BufferID SIL Size fuel s).1 = pumpBody E ParseOnly BufferID SIL t ∧
          (pumpBody E ParseOnly BufferID SIL t).BufferOffset = Size) := by
  intro fuel
  induction fuel with
  | zero => intro s hs; simp [pumpLoop, hs]
  | succ n ih =>
    intro s hs
    by_cases h : (pumpBody E ParseOnly BufferID SIL s).BufferOffset = Size
    · simp only [pumpLoop, h, ne_eq, not_true_eq_false, if_false]
      exact ⟨by simp, fun _ => ⟨s, hs, rfl, h⟩⟩
    · simp only [pumpLoop, h, ne_eq, not_false_eq_true, if_true]
      exact ih _ (hstep s hs h)

/-- An invariant of the file loop, indexed by the files parsed so far, holds at the end
of a run without assertion failure, and held before the file whose parse failed the
assertion otherwise. -/
theorem parseAllFiles_inv (Inv : List Nat → BuildState σ → Prop)
    (hstep : ∀ done BufferID s, Inv done s →
      (parseFile E BufferID s).BufferOffset = E.getBufferSize BufferID →
      Inv (done ++ [BufferID]) (parseFile E BufferID s)) :
    ∀ (ids done : List Nat) (s : BuildState σ), Inv done s →
      ((parseAllFiles E ids s).2 = true → Inv (done ++ ids) (parseAllFiles E ids s).1) ∧
      ((parseAllFiles E ids s).2 = false →
        ∃ k BufferID t, ids[k]? = some BufferID ∧ Inv (done ++ ids.take k) t ∧
          (parseAllFiles E ids s).1 = parseFile E BufferID t ∧
          (parseFile E BufferID t).BufferOffset ≠ E.getBufferSize BufferID) := by
  intro ids
  induction ids with
  | nil => intro done s hs; simp [parseAllFiles, hs]
  | cons id rest ih =>
    intro done s hs
    by_cases h : (parseFile E id s).BufferOffset = E.getBufferSize id
    · simp only [parseAllFiles, h, if_true]
      have h1 := ih (done ++ [id]) _ (hstep done id s hs h)
      refine ⟨fun hb => ?_, fun hb => ?_⟩
      · simpa using h1.1 hb
      · obtain ⟨k, b, t, hk, hinv, heq, hne⟩ := h1.2 hb
        exact ⟨k + 1, b, t, by simpa using hk, by simpa using hinv, heq, hne⟩
    · simp only [parseAllFiles, h, if_false]
      exact ⟨by simp, fun _ => ⟨0, id, s, by simp, by simpa using hs, rfl, h⟩⟩

/-- Neither loop calls the auto-import: the log only grows, by events that are not
auto-import calls. -/
theorem pumpLoop_trace_ext (ParseOnly : Bool) (BufferID : Nat) (SIL : Option SILModule)
    (Size : Nat) : ∀ (fuel : Nat) (s : BuildState σ),
      ∃ rest, (pumpLoop E ParseOnly BufferID SIL Size fuel s).1.Trace = s.Trace ++ rest ∧
        autoImportCalls rest = [] := by
  intro fuel
  induction fuel with
  | zero => intro s; exact ⟨[], by simp [pumpLoop], rfl⟩
  | succ n ih =>
    intro s
    have hbody : ∃ evs, (pumpBody E ParseOnly BufferID SIL s).Trace = s.Trace ++ evs ∧
        autoImportCalls evs = [] := by
      cases ParseOnly
      · exact ⟨_, rfl, by simp [autoImportCalls, Event.asAutoImport]⟩
      · exact ⟨_, rfl, by simp [autoImportCalls, Event.asAutoImport]⟩
    obtain ⟨evs, hevs, hnone⟩ := hbody
    by_cases h : (pumpBody E ParseOnly BufferID SIL s).BufferOffset = Size
    · exact ⟨evs, by simp only [pumpLoop, h, ne_eq, not_true_eq_false, if_false, hevs], hnone⟩
    · obtain ⟨rest, hrest, hnone2⟩ := ih (pumpBody E ParseOnly BufferID SIL s)
      refine ⟨evs ++ rest, ?_, ?_⟩
      · simp only [pumpLoop, h, ne_eq, not_false_eq_true, if_true, hrest, hevs,
          List.append_assoc]
      · simp only [autoImportCalls, List.filterMap_append] at *
        simp [hnone, hnone2]

/-- The file loop does not call the auto-import either. -/
theorem parseAllFiles_trace_ext : ∀ (ids : List Nat) (s : BuildState σ),
    ∃ rest, (parseAllFiles E ids s).1.Trace = s.Trace ++ rest ∧
      autoImportCalls rest = [] := by
  intro ids
  induction ids with
  | nil => intro s; exact ⟨[], by simp [parseAllFiles], rfl⟩
  | cons id ids ih =>
    intro s
    have hbody : ∃ evs, (parseFile E id s).Trace = s.Trace ++ evs ∧
        autoImportCalls evs = [] :=
      ⟨_, rfl, by simp [autoImportCalls, Event.asAutoImport]⟩
    obtain ⟨evs, hevs, hnone⟩ := hbody
    by_cases h : (parseFile E id s).BufferOffset = E.getBufferSize id
    · obtain ⟨rest, hrest, hnone2⟩ := ih (parseFile E id s)
      refine ⟨evs ++ rest, ?_, ?_⟩
      · simp only [parseAllFiles, h, if_true, hrest, hevs, List.append_assoc]
      · simp only [autoImportCalls, List.filterMap_append] at *
        simp [hnone, hnone2]
    · exact ⟨evs, by simp only [parseAllFiles, h, if_false, hevs], hnone⟩

/-- The log of a call starts with the log of the auto-import step and goes on with
events that are not auto-import calls. -/
theorem buildSingleTranslationUnit_trace_ext (fuel : Nat) (Context : ASTContext)
    (World : σ) (OutputName : String) (BufferIDs : List Nat)
    (ParseOnly AllowBuiltinModule : Bool) (Kind : TUKind) (SIL : Option SILModule) :
    ∃ rest, (buildSingleTranslationUnit E fuel Context World OutputName BufferIDs ParseOnly
        AllowBuiltinModule Kind SIL).Trace
      = (autoImport E World
          (createTranslationUnit E Context OutputName AllowBuiltinModule Kind).2.2
          ParseOnly Kind).Trace ++ rest ∧
      autoImportCalls rest = [] := by
  unfold buildSingleTranslationUnit
  by_cases hmany : BufferIDs.length > 1
  · simp only [hmany, if_true]
    by_cases hkind : Kind = TUKind.Library
    · simp only [hkind, ne_eq, not_true_eq_false, if_false]
      obtain ⟨rest, hrest, hnone⟩ := parseAllFiles_trace_ext E BufferIDs
        (autoImport E World
          (createTranslationUnit E Context OutputName AllowBuiltinModule TUKind.Library).2.2
          ParseOnly TUKind.Library)
      split_ifs
      · exact ⟨rest, by simp only [finish, hrest], hnone⟩
      · exact ⟨rest, by simp only [finish, hrest], hnone⟩
      · refine ⟨rest ++ [Event.performTypeChecking _], by
          simp only [finish, hrest, List.append_assoc]; rfl, ?_⟩
        simp only [autoImportCalls, List.filterMap_append] at *
        simp [hnone, Event.asAutoImport]
    · exact ⟨[], by simp [hkind, finish], rfl⟩
  · simp only [hmany, if_false]
    match BufferIDs with
    | [] => exact ⟨[], by simp [finish], rfl⟩
    | [BufferID] =>
      simp only
      obtain ⟨rest, hrest, hnone⟩ := pumpLoop_trace_ext E ParseOnly BufferID SIL
        (E.getBufferSize BufferID) fuel
        { autoImport E World
            (createTranslationUnit E Context OutputName AllowBuiltinModule Kind).2.2
            ParseOnly Kind with
          Trace := (autoImport E World
            (createTranslationUnit E Context OutputName AllowBuiltinModule Kind).2.2
            ParseOnly Kind).Trace ++ [Event.getMemoryBuffer BufferID] }
      refine ⟨Event.getMemoryBuffer BufferID :: rest, ?_, ?_⟩
      · split_ifs <;> simp only [finish, hrest, List.append_assoc, List.singleton_append]
      · simp only [autoImportCalls] at *
        simp [hnone, Event.asAutoImport]
    | _ :: _ :: _ => simp at hmany

/-! ### One pump iteration -/

theorem pumpBody_BufferOffset (ParseOnly : Bool) (BufferID : Nat) (SIL : Option SILModule)
    (s : BuildState σ) :
    (pumpBody E ParseOnly BufferID SIL s).BufferOffset
      = (E.parseIntoTranslationUnit s.World s.TU BufferID s.BufferOffset SIL).BufferOffset := by
  cases ParseOnly <;> rfl

theorem pumpBody_TU (ParseOnly : Bool) (BufferID : Nat) (SIL : Option SILModule)
    (s : BuildState σ) :
    (pumpBody E ParseOnly BufferID SIL s).TU
      = s.TU.append (E.parseIntoTranslationUnit s.World s.TU BufferID s.BufferOffset SIL).Added := by
  cases ParseOnly <;> rfl

theorem pumpBody_CurTUElem (ParseOnly : Bool) (BufferID : Nat) (SIL : Option SILModule)
    (s : BuildState σ) :
    (pumpBody E ParseOnly BufferID SIL s).CurTUElem
      = (pumpBody E ParseOnly BufferID SIL s).TU.Decls.length := by
  cases ParseOnly <;> rfl

theorem pumpBody_parseCalls (ParseOnly : Bool) (BufferID : Nat) (SIL : Option SILModule)
    (s : BuildState σ) :
    parseCalls (pumpBody E ParseOnly BufferID SIL s).Trace
      = parseCalls s.Trace ++
        [{ TU := s.TU, BufferID := BufferID, BufferOffset := s.BufferOffset, SIL := SIL,
           Added := (E.parseIntoTranslationUnit s.World s.TU BufferID s.BufferOffset SIL).Added,
           EndOffset :=
             (E.parseIntoTranslationUnit s.World s.TU BufferID s.BufferOffset SIL).BufferOffset }] := by
  cases ParseOnly <;>
    simp [pumpBody, parseCalls, List.filterMap_append, Event.asParseCall]

theorem pumpBody_checkCalls (BufferID : Nat) (SIL : Option SILModule) (s : BuildState σ) :
    checkCalls (pumpBody E false BufferID SIL s).Trace
      = checkCalls s.Trace ++
        [{ TU := s.TU.append
             (E.parseIntoTranslationUnit s.World s.TU BufferID s.BufferOffset SIL).Added,
           StartElem := s.CurTUElem }] := by
  simp [pumpBody, checkCalls, List.filterMap_append, Event.asCheckCall]

theorem pumpBody_importedDecls (ParseOnly : Bool) (BufferID : Nat) (SIL : Option SILModule)
    (s : BuildState σ) :
    importedDecls (pumpBody E ParseOnly BufferID SIL s).Trace = importedDecls s.Trace := by
  cases ParseOnly <;>
    simp [pumpBody, importedDecls, autoImportCalls, List.filterMap_append, Event.asAutoImport]

/-! ### Fuel -/

/-- A pump that ran to its end made at least one parser call, and gives the same result
with any fuel that is at least the number of parser calls it made. -/
theorem pumpLoop_fuel (ParseOnly : Bool) (BufferID : Nat) (SIL : Option SILModule)
    (Size : Nat) : ∀ (fuel : Nat) (s : BuildState σ),
      (pumpLoop E ParseOnly BufferID SIL Size fuel s).2 = true →
      (parseCalls s.Trace).length
        < (parseCalls (pumpLoop E ParseOnly BufferID SIL Size fuel s).1.Trace).length ∧
      (parseCalls (pumpLoop E ParseOnly BufferID SIL Size fuel s).1.Trace).length
        ≤ (parseCalls s.Trace).length + fuel ∧
      ∀ fuel2,
        (parseCalls (pumpLoop E ParseOnly BufferID SIL Size fuel s).1.Trace).length
          - (parseCalls s.Trace).length ≤ fuel2 →
        pumpLoop E ParseOnly BufferID SIL Size fuel2 s
          = pumpLoop E ParseOnly BufferID SIL Size fuel s := by
  intro fuel
  induction fuel with
  | zero => intro s h; simp [pumpLoop] at h
  | succ n ih =>
    intro s hret
    have hlen := congrArg List.length (pumpBody_parseCalls E ParseOnly BufferID SIL s)
    simp only [List.length_append, List.length_singleton] at hlen
    by_cases h : (pumpBody E ParseOnly BufferID SIL s).BufferOffset = Size
    · simp only [pumpLoop, h, ne_eq, not_true_eq_false, if_false]
      refine ⟨by omega, by omega, fun fuel2 h2 => ?_⟩
      cases fuel2 with
      | zero => omega
      | succ m => simp only [pumpLoop, h, ne_eq, not_true_eq_false, if_false]
    · simp only [pumpLoop, h, ne_eq, not_false_eq_true, if_true] at hret ⊢
      obtain ⟨hlt, hle, hall⟩ := ih _ hret
      refine ⟨by omega, by omega, fun fuel2 h2 => ?_⟩
      cases fuel2 with
      | zero => omega
      | succ m =>
        simp only [pumpLoop, h, ne_eq, not_false_eq_true, if_true]
        exact hall m (by omega)

/-- Under the parser's contract for the pumped buffer (the offset never decreases,
never passes the end of the buffer, and increases in every call that does not reach the
end), the pump runs to its end within `Size - BufferOffset + 1` iterations. -/
theorem pumpLoop_terminates (ParseOnly : Bool) (BufferID : Nat) (SIL : Option SILModule)
    (Size : Nat)
    (hcontract : ∀ (w : σ) (TU : TranslationUnit) (off : Nat), off ≤ Size →
      off ≤ (E.parseIntoTranslationUnit w TU BufferID off SIL).BufferOffset ∧
      (E.parseIntoTranslationUnit w TU BufferID off SIL).BufferOffset ≤ Size ∧
      ((E.parseIntoTranslationUnit w TU BufferID off SIL).BufferOffset ≠ Size →
        off < (E.parseIntoTranslationUnit w TU BufferID off SIL).BufferOffset)) :
    ∀ (fuel : Nat) (s : BuildState σ), s.BufferOffset ≤ Size →
      Size - s.BufferOffset < fuel →
      (pumpLoop E ParseOnly BufferID SIL Size fuel s).2 = true := by
  intro fuel
  induction fuel with
  | zero => intro s _ h; omega
  | succ n ih =>
    intro s hle hfuel
    have hc := hcontract s.World s.TU s.BufferOffset hle
    have hoff := pumpBody_BufferOffset E ParseOnly BufferID SIL s
    by_cases h : (pumpBody E ParseOnly BufferID SIL s).BufferOffset = Size
    · simp only [pumpLoop, h, ne_eq, not_true_eq_false, if_false]
    · simp only [pumpLoop, h, ne_eq, not_false_eq_true, if_true]
      rw [hoff] at h
      exact ih _ (by rw [hoff]; exact hc.2.1) (by rw [hoff]; have := hc.2.2 h; omega)

/-- The result of a call with exactly one buffer, in terms of the pump. -/
theorem buildSingleTranslationUnit_single (fuel : Nat) (Context : ASTContext) (World : σ)
    (OutputName : String) (BufferID : Nat) (ParseOnly AllowBuiltinModule : Bool)
    (Kind : TUKind) (SIL : Option SILModule) :
    buildSingleTranslationUnit E fuel Context World OutputName [BufferID] ParseOnly
        AllowBuiltinModule Kind SIL
      = finish (createTranslationUnit E Context OutputName AllowBuiltinModule Kind).1
          (createTranslationUnit E Context OutputName AllowBuiltinModule Kind).2.1
          (pumpLoop E ParseOnly BufferID SIL (E.getBufferSize BufferID) fuel
            (pumpStart E Context World OutputName BufferID ParseOnly AllowBuiltinModule
              Kind)).1
          (if (pumpLoop E ParseOnly BufferID SIL (E.getBufferSize BufferID) fuel
            (pumpStart E Context World OutputName BufferID ParseOnly AllowBuiltinModule
              Kind)).2
            then Outcome.returned else Outcome.outOfFuel) := by
  simp only [buildSingleTranslationUnit, List.length_singleton, gt_iff_lt, lt_self_iff_false,
    if_false, pumpStart]
  split_ifs <;> rfl

/-- A call with one buffer returns exactly when its pump ran to its end. -/
theorem buildSingleTranslationUnit_single_returned (fuel : Nat) (Context : ASTContext)
    (World : σ) (OutputName : String) (BufferID : Nat) (ParseOnly AllowBuiltinModule : Bool)
    (Kind : TUKind) (SIL : Option SILModule) :
    (buildSingleTranslationUnit E fuel Context World OutputName [BufferID] ParseOnly
        AllowBuiltinModule Kind SIL).Ret = Outcome.returned ↔
      (pumpLoop E ParseOnly BufferID SIL (E.getBufferSize BufferID) fuel
        (pumpStart E Context World OutputName BufferID ParseOnly AllowBuiltinModule
          Kind)).2 = true := by
  rw [buildSingleTranslationUnit_single]
  simp only [finish]
  split_ifs with h <;> simp [h]

/-- On entry to the pump no parser or checker call has been made, both cursors are 0,
and the unit holds the declarations the auto-import appended. -/
theorem pumpStart_facts (Context : ASTContext) (World : σ) (OutputName : String)
    (BufferID : Nat) (ParseOnly AllowBuiltinModule : Bool) (Kind : TUKind) :
    parseCalls (pumpStart E Context World OutputName BufferID ParseOnly AllowBuiltinModule
        Kind).Trace = [] ∧
    checkCalls (pumpStart E Context World OutputName BufferID ParseOnly AllowBuiltinModule
        Kind).Trace = [] ∧
    (pumpStart E Context World OutputName BufferID ParseOnly AllowBuiltinModule
        Kind).BufferOffset = 0 ∧
    (pumpStart E Context World OutputName BufferID ParseOnly AllowBuiltinModule
        Kind).CurTUElem = 0 ∧
    (pumpStart E Context World OutputName BufferID ParseOnly AllowBuiltinModule
        Kind).TU.Decls
      = importedDecls (pumpStart E Context World OutputName BufferID ParseOnly
          AllowBuiltinModule Kind).Trace ∧
    (Kind = TUKind.SIL →
      importedDecls (pumpStart E Context World OutputName BufferID ParseOnly
          AllowBuiltinModule Kind).Trace = []) := by
  simp only [pumpStart, autoImport, createTranslationUnit]
  split_ifs with h <;>
    simp_all [parseCalls, checkCalls, importedDecls, autoImportCalls, Event.asParseCall,
      Event.asCheckCall, Event.asAutoImport, TranslationUnit.append]

/-- Two sequences that, each extended by the same last element, are the same non-empty
sequence behind their first elements, agree from their second element on. -/
theorem eq_cons_tail_of_concat {xs ys zs : List Nat} {x a b : Nat} (hz : zs ≠ [])
    (h1 : xs ++ [x] = a :: zs) (h2 : ys ++ [x] = b :: zs) :
    xs = a :: ys.tail ∧ ys.head? = some b := by
  have hx : xs = (a :: zs).dropLast := by rw [← h1, List.dropLast_concat]
  have hy : ys = (b :: zs).dropLast := by rw [← h2, List.dropLast_concat]
  cases zs with
  | nil => exact absurd rfl hz
  | cons z zs =>
    rw [List.dropLast_cons₂] at hx hy
    subst hx hy
    exact ⟨rfl, rfl⟩

/-- The loop-head invariant of the pump with semantic analysis on: the checker calls
made so far tile the declarations from index 0 up to `CurTUElem`, the declaration counts
before the parser calls are the ends of these ranges, shifted by one call and starting
with the number of auto-imported declarations, and each checker call got the unit as
the parser call of its iteration left it. -/
theorem pumpBody_checks_inv (BufferID : Nat) (SIL : Option SILModule) (s : BuildState σ)
    (hs : checkStarts s.Trace ++ [s.CurTUElem] = 0 :: checkEnds s.Trace ∧
      declCountsBeforeParse s.Trace ++ [s.TU.Decls.length]
        = (importedDecls s.Trace).length :: checkEnds s.Trace ∧
      (checkCalls s.Trace).map (fun c => c.TU)
        = (parseCalls s.Trace).map (fun p => p.TU.append p.Added)) :
    checkStarts (pumpBody E false BufferID SIL s).Trace
        ++ [(pumpBody E false BufferID SIL s).CurTUElem]
      = 0 :: checkEnds (pumpBody E false BufferID SIL s).Trace ∧
    declCountsBeforeParse (pumpBody E false BufferID SIL s).Trace
        ++ [(pumpBody E false BufferID SIL s).TU.Decls.length]
      = (importedDecls (pumpBody E false BufferID SIL s).Trace).length
          :: checkEnds (pumpBody E false BufferID SIL s).Trace ∧
    (checkCalls (pumpBody E false BufferID SIL s).Trace).map (fun c => c.TU)
      = (parseCalls (pumpBody E false BufferID SIL s).Trace).map
          (fun p => p.TU.append p.Added) := by
  obtain ⟨ha, hb, hc⟩ := hs
  simp only [checkStarts, checkEnds, declCountsBeforeParse] at ha hb ⊢
  rw [pumpBody_CurTUElem, pumpBody_TU, pumpBody_checkCalls, pumpBody_parseCalls,
    pumpBody_importedDecls]
  refine ⟨?_, ?_, ?_⟩
  · have := congrArg (fun l => l ++ [(s.TU.append (E.parseIntoTranslationUnit s.World s.TU
      BufferID s.BufferOffset SIL).Added).Decls.length]) ha
    simpa using this
  · have := congrArg (fun l => l ++ [(s.TU.append (E.parseIntoTranslationUnit s.World s.TU
      BufferID s.BufferOffset SIL).Added).Decls.length]) hb
    simpa using this
  · simp [hc]

/-! ### The file loop -/

theorem parseFile_parseCalls (BufferID : Nat) (s : BuildState σ) :
    parseCalls (parseFile E BufferID s).Trace
      = parseCalls s.Trace ++
        [{ TU := s.TU, BufferID := BufferID, BufferOffset := 0, SIL := none,
           Added := (E.parseIntoTranslationUnit s.World s.TU BufferID 0 none).Added,
           EndOffset := (E.parseIntoTranslationUnit s.World s.TU BufferID 0 none).BufferOffset }] := by
  simp [parseFile, parseCalls, List.filterMap_append, Event.asParseCall]

theorem parseFile_checkCalls (BufferID : Nat) (s : BuildState σ) :
    checkCalls (parseFile E BufferID s).Trace = checkCalls s.Trace := by
  simp [parseFile, checkCalls, List.filterMap_append, Event.asCheckCall]

theorem parseFile_importedDecls (BufferID : Nat) (s : BuildState σ) :
    importedDecls (parseFile E BufferID s).Trace = importedDecls s.Trace := by
  simp [parseFile, importedDecls, autoImportCalls, List.filterMap_append, Event.asAutoImport]

theorem parseFile_BufferOffset (BufferID : Nat) (s : BuildState σ) :
    (parseFile E BufferID s).BufferOffset
      = (E.parseIntoTranslationUnit s.World s.TU BufferID 0 none).BufferOffset := rfl

/-- Parsing one more file, up to its size, keeps the invariant of the file loop. -/
theorem parseFile_inv (done : List Nat) (BufferID : Nat) (s : BuildState σ)
    (hs : BatchInv E done s)
    (hoff : (parseFile E BufferID s).BufferOffset = E.getBufferSize BufferID) :
    BatchInv E (done ++ [BufferID]) (parseFile E BufferID s) := by
  obtain ⟨h1, h2, h3, h4⟩ := hs
  rw [parseFile_BufferOffset] at hoff
  refine ⟨?_, ?_, ?_, ?_⟩
  · rw [parseFile_importedDecls]
    simp only [parsedDecls, parseFile_parseCalls]
    simp only [parsedDecls] at h1
    simp [parseFile, TranslationUnit.append, h1]
  · rw [parseFile_parseCalls]
    simp [h2]
  · rw [parseFile_parseCalls]
    intro c hc
    rcases List.mem_append.1 hc with hc | hc
    · exact h3 c hc
    · rw [List.mem_singleton] at hc
      subst hc
      exact ⟨hoff, rfl, rfl⟩
  · rw [parseFile_checkCalls]
    exact h4

/-- The file loop is entered with its invariant. -/
theorem autoImport_inv (Context : ASTContext) (World : σ) (OutputName : String)
    (ParseOnly AllowBuiltinModule : Bool) (Kind : TUKind) :
    BatchInv E [] (autoImport E World
      (createTranslationUnit E Context OutputName AllowBuiltinModule Kind).2.2 ParseOnly Kind) ∧
    (ParseOnly = true → importedDecls (autoImport E World
      (createTranslationUnit E Context OutputName AllowBuiltinModule Kind).2.2 ParseOnly
      Kind).Trace = []) := by
  simp only [BatchInv, autoImport, createTranslationUnit]
  split_ifs with h <;>
    simp_all [parseCalls, checkCalls, importedDecls, parsedDecls, autoImportCalls,
      Event.asParseCall, Event.asCheckCall, Event.asAutoImport, TranslationUnit.append]

/-- The file loop neither adds nor drops auto-imported declarations. -/
theorem parseAllFiles_importedDecls : ∀ (ids : List Nat) (s : BuildState σ),
    importedDecls (parseAllFiles E ids s).1.Trace = importedDecls s.Trace := by
  intro ids s
  obtain ⟨rest, hrest, hnone⟩ := parseAllFiles_trace_ext E ids s
  rw [hrest]
  simp only [importedDecls, autoImportCalls, List.filterMap_append] at *
  rw [hnone]
  simp

/-- The result of a call with more than one buffer and kind `Library`, in terms of the
file loop. -/
theorem buildSingleTranslationUnit_batch (fuel : Nat) (Context : ASTContext) (World : σ)
    (OutputName : String) (BufferIDs : List Nat) (ParseOnly AllowBuiltinModule : Bool)
    (SIL : Option SILModule) (hmany : BufferIDs.length > 1) :
    buildSingleTranslationUnit E fuel Context World OutputName BufferIDs ParseOnly
        AllowBuiltinModule TUKind.Library SIL
      = if (parseAllFiles E BufferIDs (autoImport E World
            (createTranslationUnit E Context OutputName AllowBuiltinModule TUKind.Library).2.2
            ParseOnly TUKind.Library)).2 = false then
          finish (createTranslationUnit E Context OutputName AllowBuiltinModule
              TUKind.Library).1
            (createTranslationUnit E Context OutputName AllowBuiltinModule TUKind.Library).2.1
            (parseAllFiles E BufferIDs (autoImport E World
              (createTranslationUnit E Context OutputName AllowBuiltinModule
                TUKind.Library).2.2 ParseOnly TUKind.Library)).1
            (Outcome.assertionFailed "Parser returned early?")
        else if ParseOnly then
          finish (createTranslationUnit E Context OutputName AllowBuiltinModule
              TUKind.Library).1
            (createTranslationUnit E Context OutputName AllowBuiltinModule TUKind.Library).2.1
            (parseAllFiles E BufferIDs (autoImport E World
              (createTranslationUnit E Context OutputName AllowBuiltinModule
                TUKind.Library).2.2 ParseOnly TUKind.Library)).1
            Outcome.returned
        else
          finish (createTranslationUnit E Context OutputName AllowBuiltinModule
              TUKind.Library).1
            (createTranslationUnit E Context OutputName AllowBuiltinModule TUKind.Library).2.1
            { (parseAllFiles E BufferIDs (autoImport E World
                (createTranslationUnit E Context OutputName AllowBuiltinModule
                  TUKind.Library).2.2 ParseOnly TUKind.Library)).1 with
              World := E.performTypeChecking
                (parseAllFiles E BufferIDs (autoImport E World
                  (createTranslationUnit E Context OutputName AllowBuiltinModule
                    TUKind.Library).2.2 ParseOnly TUKind.Library)).1.World
                (parseAllFiles E BufferIDs (autoImport E World
                  (createTranslationUnit E Context OutputName AllowBuiltinModule
                    TUKind.Library).2.2 ParseOnly TUKind.Library)).1.TU 0
              Trace := (parseAllFiles E BufferIDs (autoImport E World
                  (createTranslationUnit E Context OutputName AllowBuiltinModule
                    TUKind.Library).2.2 ParseOnly TUKind.Library)).1.Trace ++
                [Event.performTypeChecking
                  { TU := (parseAllFiles E BufferIDs (autoImport E World
                      (createTranslationUnit E Context OutputName AllowBuiltinModule
                        TUKind.Library).2.2 ParseOnly TUKind.Library)).1.TU,
                    StartElem := 0 }] }
            Outcome.returned := by
  simp only [buildSingleTranslationUnit, hmany, if_true, ne_eq, not_true_eq_false, if_false]

/-- A call with more than one buffer that returns has kind `Library`. -/
theorem buildSingleTranslationUnit_batch_kind (fuel : Nat) (Context : ASTContext) (World : σ)
    (OutputName : String) (BufferIDs : List Nat) (ParseOnly AllowBuiltinModule : Bool)
    (Kind : TUKind) (SIL : Option SILModule) (hmany : BufferIDs.length > 1)
    (hret : (buildSingleTranslationUnit E fuel Context World OutputName BufferIDs ParseOnly
      AllowBuiltinModule Kind SIL).Ret = Outcome.returned) : Kind = TUKind.Library := by
  by_contra hkind
  simp [buildSingleTranslationUnit, hmany, hkind, finish] at hret

/-- What the final checker call of the multiple-file path adds to the readings of a
log. -/
theorem trace_append_check (Trace : List Event) (c : CheckCall) :
    parseCalls (Trace ++ [Event.performTypeChecking c]) = parseCalls Trace ∧
    checkCalls (Trace ++ [Event.performTypeChecking c]) = checkCalls Trace ++ [c] ∧
    importedDecls (Trace ++ [Event.performTypeChecking c]) = importedDecls Trace ∧
    parsedDecls (Trace ++ [Event.performTypeChecking c]) = parsedDecls Trace := by
  simp [parseCalls, checkCalls, importedDecls, parsedDecls, autoImportCalls,
    List.filterMap_append, Event.asParseCall, Event.asCheckCall, Event.asAutoImport]

/-- Parser calls made in file order, each from offset 0. -/
theorem map_pair_of_map {calls : List ParseCall} {ids : List Nat}
    (h1 : calls.map (fun c => c.BufferID) = ids) (h2 : ∀ c ∈ calls, c.BufferOffset = 0) :
    calls.map (fun c => (c.BufferID, c.BufferOffset)) = ids.map (fun b => (b, 0)) := by
  subst h1
  rw [List.map_map]
  exact List.map_congr_left (fun c hc => by simp [h2 c hc])

/-- The file loop either parses every file up to its size, keeping its invariant, or
stops at the first file whose parse ended elsewhere. -/
theorem parseAllFiles_batch (ids : List Nat) (s : BuildState σ) (hs : BatchInv E [] s) :
    ((parseAllFiles E ids s).2 = true → BatchInv E ids (parseAllFiles E ids s).1) ∧
    ((parseAllFiles E ids s).2 = false →
      checkCalls (parseAllFiles E ids s).1.Trace = [] ∧
      ∃ pre c, parseCalls (parseAllFiles E ids s).1.Trace = pre ++ [c] ∧
        (∀ q ∈ pre, q.EndOffset = E.getBufferSize q.BufferID) ∧
        c.EndOffset ≠ E.getBufferSize c.BufferID ∧
        (pre ++ [c]).map (fun q => q.BufferID) = ids.take (pre.length + 1)) := by
  have h := parseAllFiles_inv E (BatchInv E) (parseFile_inv E) ids [] s hs
  refine ⟨fun hb => by simpa using h.1 hb, fun hb => ?_⟩
  obtain ⟨k, b, t, hk, ht, heq, hne⟩ := h.2 hb
  simp only [List.nil_append] at ht
  obtain ⟨_, h2, h3, h4⟩ := ht
  rw [parseFile_BufferOffset] at hne
  have hklt : k < ids.length := by
    by_contra hge
    rw [List.getElem?_eq_none (by omega)] at hk
    cases hk
  have hlen : (parseCalls t.Trace).length = k := by
    have := congrArg List.length h2
    rw [List.length_map, List.length_take] at this
    omega
  rw [heq, parseFile_checkCalls, parseFile_parseCalls]
  refine ⟨h4, parseCalls t.Trace, _, rfl, fun q hq => (h3 q hq).1, hne, ?_⟩
  rw [hlen, List.take_succ, hk]
  simp [h2]

/-- When a call with one buffer returns, its parser calls are `early ++ [last]` where
every call of `early` stopped at an offset other than the buffer size and `last`
stopped at the buffer size. The first call starts at offset 0, each later call starts
at the offset the call before it stopped at, and the last stops at the buffer size,
which is the value of the byte-offset cursor on return. All calls are for the one
buffer, and the result is the same for any fuel of at least the number of calls. -/
theorem pump_offsets_of_returned (fuel : Nat) (Context : ASTContext) (World : σ) (OutputName : String) (BufferID : Nat)
    (ParseOnly AllowBuiltinModule : Bool) (Kind : TUKind) (SIL : Option SILModule)
    (hret : (buildSingleTranslationUnit E fuel Context World OutputName [BufferID]
      ParseOnly AllowBuiltinModule Kind SIL).Ret = Outcome.returned) :
    ∃ early last,
      parseCalls (buildSingleTranslationUnit E fuel Context World OutputName [BufferID]
        ParseOnly AllowBuiltinModule Kind SIL).Trace = early ++ [last] ∧
      (∀ c ∈ early, c.EndOffset ≠ E.getBufferSize BufferID) ∧
      last.EndOffset = E.getBufferSize BufferID ∧
      (early ++ [last]).map (fun c => c.BufferOffset) ++ [E.getBufferSize BufferID]
        = 0 :: (early ++ [last]).map (fun c => c.EndOffset) ∧
      (∀ c ∈ early ++ [last], c.BufferID = BufferID) ∧
      (buildSingleTranslationUnit E fuel Context World OutputName [BufferID] ParseOnly
        AllowBuiltinModule Kind SIL).BufferOffset = E.getBufferSize BufferID ∧
      ∀ fuel2, early.length + 1 ≤ fuel2 →
        buildSingleTranslationUnit E fuel2 Context World OutputName [BufferID] ParseOnly
            AllowBuiltinModule Kind SIL
          = buildSingleTranslationUnit E fuel Context World OutputName [BufferID] ParseOnly
            AllowBuiltinModule Kind SIL := by
  have hstart := pumpStart_facts E Context World OutputName BufferID ParseOnly
    AllowBuiltinModule Kind
  have hloop := (buildSingleTranslationUnit_single_returned E fuel Context World OutputName
    BufferID ParseOnly AllowBuiltinModule Kind SIL).1 hret
  have hinv := pumpLoop_inv E ParseOnly BufferID SIL (E.getBufferSize BufferID)
    (fun s => (parseCalls s.Trace).map (fun c => c.BufferOffset) ++ [s.BufferOffset]
        = 0 :: (parseCalls s.Trace).map (fun c => c.EndOffset) ∧
      ∀ c ∈ parseCalls s.Trace, c.EndOffset ≠ E.getBufferSize BufferID ∧ c.BufferID = BufferID)
    (by
      intro s hs hne
      rw [pumpBody_parseCalls, pumpBody_BufferOffset]
      rw [pumpBody_BufferOffset] at hne
      refine ⟨by simp [hs.1], ?_⟩
      intro c hc
      rcases List.mem_append.1 hc with hc | hc
      · exact hs.2 c hc
      · rw [List.mem_singleton] at hc
        subst hc
        exact ⟨hne, rfl⟩)
    fuel (pumpStart E Context World OutputName BufferID ParseOnly AllowBuiltinModule Kind)
    (by simp only [hstart.1, hstart.2.2.1]; simp)
  obtain ⟨t, ht, heq, hoff⟩ := hinv.2 hloop
  obtain ⟨_, _, hall⟩ := pumpLoop_fuel E ParseOnly BufferID SIL _ fuel _ hloop
  have hcalls := pumpBody_parseCalls E ParseOnly BufferID SIL t
  have hoff2 := hoff
  rw [pumpBody_BufferOffset] at hoff2
  refine ⟨parseCalls t.Trace,
    { TU := t.TU, BufferID := BufferID, BufferOffset := t.BufferOffset, SIL := SIL,
      Added := (E.parseIntoTranslationUnit t.World t.TU BufferID t.BufferOffset SIL).Added,
      EndOffset :=
        (E.parseIntoTranslationUnit t.World t.TU BufferID t.BufferOffset SIL).BufferOffset },
    ?_, fun c hc => (ht.2 c hc).1, hoff2, ?_, ?_, ?_, ?_⟩
  · rw [buildSingleTranslationUnit_single]
    simp only [finish]
    rw [heq, hcalls]
  · simp [ht.1, hoff2]
  · intro c hc
    rcases List.mem_append.1 hc with hc | hc
    · exact (ht.2 c hc).2
    · rw [List.mem_singleton] at hc
      subst hc
      rfl
  · rw [buildSingleTranslationUnit_single]
    simp only [finish]
    rw [heq, hoff]
  · intro fuel2 h2
    rw [buildSingleTranslationUnit_single, buildSingleTranslationUnit_single]
    rw [hall fuel2 (by rw [heq, hcalls, hstart.1]; simpa using h2)]

end Loops

/-! ## The module identifier -/

/-- C9: `getModuleIdentifier` is a function of the output name and the kind only: the
identifier it returns and the diagnostics it emits are the same in every context (the
context it returns is the one it was given plus those diagnostics); and for the name
`<stdin>` it returns the identifier `stdin` and leaves the context, hence the emitted
diagnostics, untouched, whatever the kind. -/
theorem getModuleIdentifier_stdin {σ : Type} (E : Collaborators σ) (OutputName : String)
    (Kind : TUKind) (Context Context2 : ASTContext) :
    (getModuleIdentifier E OutputName Context Kind).1
        = (getModuleIdentifier E OutputName Context2 Kind).1 ∧
      (getModuleIdentifier E OutputName Context Kind).2
        = { Context with
            Diags := Context.Diags ++
              (getModuleIdentifier E OutputName emptyContext Kind).2.Diags } ∧
      getModuleIdentifier E "<stdin>" Context Kind = ({ str := "stdin" }, Context) := by
  refine ⟨?_, ?_, by simp [getModuleIdentifier, ASTContext.getIdentifier]⟩ <;>
    by_cases h1 : OutputName = "<stdin>" <;>
    by_cases h2 : E.isIdentifier (E.stem OutputName) = false <;>
    by_cases h3 : Kind = TUKind.Main <;>
    simp [getModuleIdentifier, h1, h2, h3, ASTContext.diagnose, ASTContext.getIdentifier,
      emptyContext]

/-- C10: for an output name other than `<stdin>` whose stem is not an identifier, and a
kind other than `Main` (`Library` or `SIL`), `getModuleIdentifier` returns the identifier
`bad` and emits exactly one diagnostic, `bad_module_name` at the unknown location with the
stem as its argument; nothing else in the context changes. -/
theorem getModuleIdentifier_bad {σ : Type} (E : Collaborators σ) (OutputName : String)
    (Kind : TUKind) (Context : ASTContext) (hname : OutputName ≠ "<stdin>")
    (hstem : E.isIdentifier (E.stem OutputName) = false) (hkind : Kind ≠ TUKind.Main) :
    getModuleIdentifier E OutputName Context Kind
      = ({ str := "bad" },
         { Context with
           Diags := Context.Diags ++
             [{ Loc := SourceLoc.unknown, ID := Diag.bad_module_name,
                Arg := E.stem OutputName }] }) := by
  simp [getModuleIdentifier, hname, hstem, hkind, ASTContext.diagnose,
    ASTContext.getIdentifier]

/-- Witness of C10: the output name `a-b.swift` (stem `a-b`, not an identifier) with
kind `Library`. -/
theorem getModuleIdentifier_bad_witness :
    ("a-b.swift" ≠ "<stdin>" ∧
      (scripted (fun _ => 4) []).isIdentifier ((scripted (fun _ => 4) []).stem "a-b.swift")
        = false ∧
      TUKind.Library ≠ TUKind.Main) ∧
    getModuleIdentifier (scripted (fun _ => 4) []) "a-b.swift" emptyContext TUKind.Library
      = ({ str := "bad" },
         { emptyContext with
           Diags := emptyContext.Diags ++
             [{ Loc := SourceLoc.unknown, ID := Diag.bad_module_name,
                Arg := (scripted (fun _ => 4) []).stem "a-b.swift" }] }) :=
  ⟨⟨by decide, by decide, by decide⟩,
   getModuleIdentifier_bad (scripted (fun _ => 4) []) "a-b.swift" TUKind.Library emptyContext
     (by decide) (by decide) (by decide)⟩

/-! ## Multiple files -/

/-- C4: a call with more than one buffer and a kind other than `Library` stops at the
first assertion and returns no unit, for any fuel; its call log has no buffer-store
query, no parser call and no checker call. -/
theorem buildSingleTranslationUnit_nonLibrary_batch {σ : Type} (E : Collaborators σ)
    (fuel : Nat) (Context : ASTContext) (World : σ) (OutputName : String)
    (BufferIDs : List Nat) (ParseOnly AllowBuiltinModule : Bool) (Kind : TUKind)
    (SIL : Option SILModule) (hmany : BufferIDs.length > 1)
    (hkind : Kind ≠ TUKind.Library) :
    (buildSingleTranslationUnit E fuel Context World OutputName BufferIDs ParseOnly
        AllowBuiltinModule Kind SIL).Ret
      = Outcome.assertionFailed
          "Multiple file mode can't handle early returns from the parser" ∧
    (buildSingleTranslationUnit E fuel Context World OutputName BufferIDs ParseOnly
        AllowBuiltinModule Kind SIL).returnedUnit = none ∧
    bufferQueries (buildSingleTranslationUnit E fuel Context World OutputName BufferIDs
        ParseOnly AllowBuiltinModule Kind SIL).Trace = [] ∧
    parseCalls (buildSingleTranslationUnit E fuel Context World OutputName BufferIDs
        ParseOnly AllowBuiltinModule Kind SIL).Trace = [] ∧
    checkCalls (buildSingleTranslationUnit E fuel Context World OutputName BufferIDs
        ParseOnly AllowBuiltinModule Kind SIL).Trace = [] := by
  simp only [buildSingleTranslationUnit, BuildResult.returnedUnit, hmany, hkind, if_true,
    ne_eq, not_false_eq_true, finish, autoImport]
  split_ifs <;>
    simp [bufferQueries, parseCalls, checkCalls, Event.asBufferQuery, Event.asParseCall,
      Event.asCheckCall]

/-- Witness of C4: two buffers with kind `Main`. -/
theorem buildSingleTranslationUnit_nonLibrary_batch_witness :
    (([0, 1] : List Nat).length > 1 ∧ TUKind.Main ≠ TUKind.Library) ∧
    ((buildSingleTranslationUnit (scripted (fun _ => 4) [100]) 5 emptyContext [] "a.swift"
        [0, 1] false false TUKind.Main none).Ret
      = Outcome.assertionFailed
          "Multiple file mode can't handle early returns from the parser" ∧
    (buildSingleTranslationUnit (scripted (fun _ => 4) [100]) 5 emptyContext [] "a.swift"
        [0, 1] false false TUKind.Main none).returnedUnit = none ∧
    bufferQueries (buildSingleTranslationUnit (scripted (fun _ => 4) [100]) 5 emptyContext []
        "a.swift" [0, 1] false false TUKind.Main none).Trace = [] ∧
    parseCalls (buildSingleTranslationUnit (scripted (fun _ => 4) [100]) 5 emptyContext []
        "a.swift" [0, 1] false false TUKind.Main none).Trace = [] ∧
    checkCalls (buildSingleTranslationUnit (scripted (fun _ => 4) [100]) 5 emptyContext []
        "a.swift" [0, 1] false false TUKind.Main none).Trace = []) :=
  ⟨⟨by decide, by decide⟩,
   buildSingleTranslationUnit_nonLibrary_batch (scripted (fun _ => 4) [100]) 5 emptyContext []
     "a.swift" [0, 1] false false TUKind.Main none (by decide) (by decide)⟩

/-- C2, as the code has it: when a call with more than one buffer returns, the unit's
declaration sequence is the declarations the auto-import appended followed by the
declarations the parser calls appended, in call order, and the parser calls are for the
buffers in input order. When nothing was auto-imported, as with `ParseOnly`, the
sequence is the concatenation of the parsed declarations alone. -/
theorem buildSingleTranslationUnit_batch_decls {σ : Type} (E : Collaborators σ)
    (fuel : Nat) (Context : ASTContext) (World : σ) (OutputName : String)
    (BufferIDs : List Nat) (ParseOnly AllowBuiltinModule : Bool) (Kind : TUKind)
    (SIL : Option SILModule) (hmany : BufferIDs.length > 1)
    (hret : (buildSingleTranslationUnit E fuel Context World OutputName BufferIDs ParseOnly
      AllowBuiltinModule Kind SIL).Ret = Outcome.returned) :
    (buildSingleTranslationUnit E fuel Context World OutputName BufferIDs ParseOnly
        AllowBuiltinModule Kind SIL).TU.Decls
      = importedDecls (buildSingleTranslationUnit E fuel Context World OutputName BufferIDs
          ParseOnly AllowBuiltinModule Kind SIL).Trace
        ++ parsedDecls (buildSingleTranslationUnit E fuel Context World OutputName BufferIDs
          ParseOnly AllowBuiltinModule Kind SIL).Trace ∧
    (parseCalls (buildSingleTranslationUnit E fuel Context World OutputName BufferIDs
        ParseOnly AllowBuiltinModule Kind SIL).Trace).map (fun c => c.BufferID)
      = BufferIDs ∧
    (ParseOnly = true →
      importedDecls (buildSingleTranslationUnit E fuel Context World OutputName BufferIDs
        ParseOnly AllowBuiltinModule Kind SIL).Trace = []) ∧
    (importedDecls (buildSingleTranslationUnit E fuel Context World OutputName BufferIDs
        ParseOnly AllowBuiltinModule Kind SIL).Trace = [] →
      (buildSingleTranslationUnit E fuel Context World OutputName BufferIDs ParseOnly
          AllowBuiltinModule Kind SIL).TU.Decls
        = parsedDecls (buildSingleTranslationUnit E fuel Context World OutputName BufferIDs
          ParseOnly AllowBuiltinModule Kind SIL).Trace) := by
  have hkind := buildSingleTranslationUnit_batch_kind E fuel Context World OutputName
    BufferIDs ParseOnly AllowBuiltinModule Kind SIL hmany hret
  subst hkind
  have hstart := autoImport_inv E Context World OutputName ParseOnly AllowBuiltinModule
    TUKind.Library
  have hloop := parseAllFiles_batch E BufferIDs _ hstart.1
  have himp := parseAllFiles_importedDecls E BufferIDs (autoImport E World
    (createTranslationUnit E Context OutputName AllowBuiltinModule TUKind.Library).2.2
    ParseOnly TUKind.Library)
  rw [buildSingleTranslationUnit_batch E fuel Context World OutputName BufferIDs ParseOnly
    AllowBuiltinModule SIL hmany] at hret ⊢
  split_ifs at hret ⊢ with hfail hpo
  · simp [finish] at hret
  · obtain ⟨h1, h2, _, _⟩ := hloop.1 (by simpa using hfail)
    simp only [finish]
    exact ⟨h1, h2, fun _ => by rw [himp]; exact hstart.2 hpo, fun h0 => by
      rw [h1, h0, List.nil_append]⟩
  · obtain ⟨h1, h2, _, _⟩ := hloop.1 (by simpa using hfail)
    simp only [finish, (trace_append_check _ _).1, (trace_append_check _ _).2.2.1,
      (trace_append_check _ _).2.2.2]
    exact ⟨h1, h2, fun h => absurd h hpo, fun h0 => by rw [h1, h0, List.nil_append]⟩

/-- Witness of C2: two buffers of kind `Library`, each parsed in one call, after an
auto-import that appended one declaration. -/
theorem buildSingleTranslationUnit_batch_decls_witness :
    (([0, 1] : List Nat).length > 1 ∧
      (buildSingleTranslationUnit (scripted (fun _ => 4) [100]) 0 emptyContext
        [([1], 4), ([2, 3], 4)] "a.swift" [0, 1] false false TUKind.Library none).Ret
        = Outcome.returned) ∧
    (buildSingleTranslationUnit (scripted (fun _ => 4) [100]) 0 emptyContext
        [([1], 4), ([2, 3], 4)] "a.swift" [0, 1] false false TUKind.Library none).TU.Decls
      = importedDecls (buildSingleTranslationUnit (scripted (fun _ => 4) [100]) 0
          emptyContext [([1], 4), ([2, 3], 4)] "a.swift" [0, 1] false false TUKind.Library
          none).Trace
        ++ parsedDecls (buildSingleTranslationUnit (scripted (fun _ => 4) [100]) 0
          emptyContext [([1], 4), ([2, 3], 4)] "a.swift" [0, 1] false false TUKind.Library
          none).Trace :=
  ⟨⟨by decide, by decide⟩,
   (buildSingleTranslationUnit_batch_decls (scripted (fun _ => 4) [100]) 0 emptyContext
     [([1], 4), ([2, 3], 4)] "a.swift" [0, 1] false false TUKind.Library none
     (by decide) (by decide)).1⟩

/-- Counterexample to C2 as stated: two four-byte buffers of kind `Library`, parsed in
one call each into the declarations 1 and 2, 3, with `ParseOnly = false` and an
auto-import that appends the declaration 100. The call returns with the sequence
100, 1, 2, 3, which is not the concatenation 1, 2, 3 of what the parser produced. -/
theorem batch_sequence_has_imports_counterexample :
    (buildSingleTranslationUnit (scripted (fun _ => 4) [100]) 0 emptyContext
        [([1], 4), ([2, 3], 4)] "a.swift" [0, 1] false false TUKind.Library none).Ret
      = Outcome.returned ∧
    (buildSingleTranslationUnit (scripted (fun _ => 4) [100]) 0 emptyContext
        [([1], 4), ([2, 3], 4)] "a.swift" [0, 1] false false TUKind.Library none).TU.Decls
      = [100, 1, 2, 3] ∧
    (parseCalls (buildSingleTranslationUnit (scripted (fun _ => 4) [100]) 0 emptyContext
        [([1], 4), ([2, 3], 4)] "a.swift" [0, 1] false false TUKind.Library none).Trace).map
        (fun c => (c.BufferID, c.Added)) = [(0, [1]), (1, [2, 3])] ∧
    (buildSingleTranslationUnit (scripted (fun _ => 4) [100]) 0 emptyContext
        [([1], 4), ([2, 3], 4)] "a.swift" [0, 1] false false TUKind.Library none).TU.Decls
      ≠ parsedDecls (buildSingleTranslationUnit (scripted (fun _ => 4) [100]) 0 emptyContext
        [([1], 4), ([2, 3], 4)] "a.swift" [0, 1] false false TUKind.Library none).Trace := by
  decide

/-- C3: when a call with more than one buffer and `ParseOnly = false` returns, its call
log ends with the one checker call it holds, made on the final unit with start index 0;
the calls before it include one parser call per buffer, in input order, each from
offset 0. -/
theorem buildSingleTranslationUnit_batch_check {σ : Type} (E : Collaborators σ)
    (fuel : Nat) (Context : ASTContext) (World : σ) (OutputName : String)
    (BufferIDs : List Nat) (AllowBuiltinModule : Bool) (Kind : TUKind)
    (SIL : Option SILModule) (hmany : BufferIDs.length > 1)
    (hret : (buildSingleTranslationUnit E fuel Context World OutputName BufferIDs false
      AllowBuiltinModule Kind SIL).Ret = Outcome.returned) :
    checkCalls (buildSingleTranslationUnit E fuel Context World OutputName BufferIDs false
        AllowBuiltinModule Kind SIL).Trace
      = [{ TU := (buildSingleTranslationUnit E fuel Context World OutputName BufferIDs false
            AllowBuiltinModule Kind SIL).TU,
           StartElem := 0 }] ∧
    ∃ before,
      (buildSingleTranslationUnit E fuel Context World OutputName BufferIDs false
          AllowBuiltinModule Kind SIL).Trace
        = before ++ [Event.performTypeChecking
            { TU := (buildSingleTranslationUnit E fuel Context World OutputName BufferIDs
                false AllowBuiltinModule Kind SIL).TU,
              StartElem := 0 }] ∧
      checkCalls before = [] ∧
      (parseCalls before).map (fun c => (c.BufferID, c.BufferOffset))
        = BufferIDs.map (fun b => (b, 0)) := by
  have hkind := buildSingleTranslationUnit_batch_kind E fuel Context World OutputName
    BufferIDs false AllowBuiltinModule Kind SIL hmany hret
  subst hkind
  have hstart := autoImport_inv E Context World OutputName false AllowBuiltinModule
    TUKind.Library
  have hloop := parseAllFiles_batch E BufferIDs _ hstart.1
  rw [buildSingleTranslationUnit_batch E fuel Context World OutputName BufferIDs false
    AllowBuiltinModule SIL hmany] at hret ⊢
  simp only [Bool.false_eq_true, if_false] at hret ⊢
  split_ifs at hret ⊢ with hfail
  · simp [finish] at hret
  · obtain ⟨_, h2, h3, h4⟩ := hloop.1 (by simpa using hfail)
    simp only [finish, (trace_append_check _ _).2.1, h4, List.nil_append]
    exact ⟨trivial, _, rfl, h4, map_pair_of_map h2 (fun c hc => (h3 c hc).2.1)⟩

/-- Witness of C3: two buffers of kind `Library`, each parsed in one call. -/
theorem buildSingleTranslationUnit_batch_check_witness :
    (([0, 1] : List Nat).length > 1 ∧
      (buildSingleTranslationUnit (scripted (fun _ => 4) [100]) 0 emptyContext
        [([1], 4), ([2, 3], 4)] "a.swift" [0, 1] false false TUKind.Library none).Ret
        = Outcome.returned) ∧
    checkCalls (buildSingleTranslationUnit (scripted (fun _ => 4) [100]) 0 emptyContext
        [([1], 4), ([2, 3], 4)] "a.swift" [0, 1] false false TUKind.Library none).Trace
      = [{ TU := (buildSingleTranslationUnit (scripted (fun _ => 4) [100]) 0 emptyContext
            [([1], 4), ([2, 3], 4)] "a.swift" [0, 1] false false TUKind.Library none).TU,
           StartElem := 0 }] :=
  ⟨⟨by decide, by decide⟩,
   (buildSingleTranslationUnit_batch_check (scripted (fun _ => 4) [100]) 0 emptyContext
     [([1], 4), ([2, 3], 4)] "a.swift" [0, 1] false TUKind.Library none
     (by decide) (by decide)).1⟩

/-- C5: a call with more than one buffer and kind `Library` either returns or stops at
the assertion on the consumed length. It returns exactly when every parser call it made
ended at the size of its buffer, and then it made one call per buffer, in input order.
Otherwise no unit is returned and the checker was never called; the parser calls made
are for an initial segment of the buffers, all but the last ended at the size of their
buffer and the last did not: the call stopped at the first buffer not consumed to its
full length. -/
theorem buildSingleTranslationUnit_batch_early_return {σ : Type} (E : Collaborators σ)
    (fuel : Nat) (Context : ASTContext) (World : σ) (OutputName : String)
    (BufferIDs : List Nat) (ParseOnly AllowBuiltinModule : Bool) (SIL : Option SILModule)
    (hmany : BufferIDs.length > 1) :
    ((buildSingleTranslationUnit E fuel Context World OutputName BufferIDs ParseOnly
        AllowBuiltinModule TUKind.Library SIL).Ret = Outcome.returned ∨
      (buildSingleTranslationUnit E fuel Context World OutputName BufferIDs ParseOnly
        AllowBuiltinModule TUKind.Library SIL).Ret
        = Outcome.assertionFailed "Parser returned early?") ∧
    ((buildSingleTranslationUnit E fuel Context World OutputName BufferIDs ParseOnly
        AllowBuiltinModule TUKind.Library SIL).Ret = Outcome.returned ↔
      ∀ c ∈ parseCalls (buildSingleTranslationUnit E fuel Context World OutputName BufferIDs
          ParseOnly AllowBuiltinModule TUKind.Library SIL).Trace,
        c.EndOffset = E.getBufferSize c.BufferID) ∧
    ((buildSingleTranslationUnit E fuel Context World OutputName BufferIDs ParseOnly
        AllowBuiltinModule TUKind.Library SIL).Ret = Outcome.returned →
      (parseCalls (buildSingleTranslationUnit E fuel Context World OutputName BufferIDs
          ParseOnly AllowBuiltinModule TUKind.Library SIL).Trace).map (fun c => c.BufferID)
        = BufferIDs) ∧
    ((buildSingleTranslationUnit E fuel Context World OutputName BufferIDs ParseOnly
        AllowBuiltinModule TUKind.Library SIL).Ret ≠ Outcome.returned →
      (buildSingleTranslationUnit E fuel Context World OutputName BufferIDs ParseOnly
        AllowBuiltinModule TUKind.Library SIL).returnedUnit = none ∧
      checkCalls (buildSingleTranslationUnit E fuel Context World OutputName BufferIDs
        ParseOnly AllowBuiltinModule TUKind.Library SIL).Trace = [] ∧
      ∃ pre c,
        parseCalls (buildSingleTranslationUnit E fuel Context World OutputName BufferIDs
          ParseOnly AllowBuiltinModule TUKind.Library SIL).Trace = pre ++ [c] ∧
        (∀ q ∈ pre, q.EndOffset = E.getBufferSize q.BufferID) ∧
        c.EndOffset ≠ E.getBufferSize c.BufferID ∧
        (pre ++ [c]).map (fun q => q.BufferID) = BufferIDs.take (pre.length + 1)) := by
  have hstart := autoImport_inv E Context World OutputName ParseOnly AllowBuiltinModule
    TUKind.Library
  have hloop := parseAllFiles_batch E BufferIDs _ hstart.1
  rw [buildSingleTranslationUnit_batch E fuel Context World OutputName BufferIDs ParseOnly
    AllowBuiltinModule SIL hmany]
  split_ifs with hfail hpo
  · obtain ⟨hno, pre, c, hcalls, hpre, hc, hids⟩ := hloop.2 hfail
    refine ⟨Or.inr rfl, ⟨fun h => ?_, fun h => ?_⟩, fun h => ?_,
      fun _ => ⟨rfl, hno, pre, c, hcalls, hpre, hc, hids⟩⟩
    · simp [finish] at h
    · exact absurd (h c (by simp only [finish]; rw [hcalls]; simp)) hc
    · simp [finish] at h
  · obtain ⟨_, h2, h3, _⟩ := hloop.1 (by simpa using hfail)
    exact ⟨Or.inl rfl, ⟨fun _ c hc => (h3 c hc).1, fun _ => rfl⟩, fun _ => h2,
      fun h => absurd rfl h⟩
  · obtain ⟨_, h2, h3, _⟩ := hloop.1 (by simpa using hfail)
    refine ⟨Or.inl rfl, ⟨fun _ c hc => ?_, fun _ => rfl⟩, fun _ => ?_,
      fun h => absurd rfl h⟩
    · simp only [finish, (trace_append_check _ _).1] at hc
      exact (h3 c hc).1
    · simp only [finish, (trace_append_check _ _).1]
      exact h2

/-- Witness of C5: three buffers of kind `Library`; the parser stops at offset 2 of the
second, four-byte, buffer. -/
theorem buildSingleTranslationUnit_batch_early_return_witness :
    ([0, 1, 2] : List Nat).length > 1 ∧
    ((buildSingleTranslationUnit (scripted (fun _ => 4) [100]) 0 emptyContext
        [([1], 4), ([2], 2), ([3], 4)] "a.swift" [0, 1, 2] false false TUKind.Library
        none).Ret = Outcome.returned ↔
      ∀ c ∈ parseCalls (buildSingleTranslationUnit (scripted (fun _ => 4) [100]) 0
          emptyContext [([1], 4), ([2], 2), ([3], 4)] "a.swift" [0, 1, 2] false false
          TUKind.Library none).Trace,
        c.EndOffset = (scripted (fun _ => 4) [100]).getBufferSize c.BufferID) :=
  ⟨by decide,
   (buildSingleTranslationUnit_batch_early_return (scripted (fun _ => 4) [100]) 0
     emptyContext [([1], 4), ([2], 2), ([3], 4)] "a.swift" [0, 1, 2] false false none
     (by decide)).2.1⟩

/-! ## The auto-import -/

/-- C8: the call log of any call splits into a head and a rest such that the head holds
exactly one event, an auto-import call, when the kind is not `SIL` and `ParseOnly` is
false, and is empty otherwise; the rest holds no auto-import call. So the auto-import
is called once or not at all according to that condition, and when it is called it is
the first collaborator call, ahead of every parser call. -/
theorem buildSingleTranslationUnit_autoImport {σ : Type} (E : Collaborators σ)
    (fuel : Nat) (Context : ASTContext) (World : σ) (OutputName : String)
    (BufferIDs : List Nat) (ParseOnly AllowBuiltinModule : Bool) (Kind : TUKind)
    (SIL : Option SILModule) :
    (autoImportCalls (buildSingleTranslationUnit E fuel Context World OutputName BufferIDs
        ParseOnly AllowBuiltinModule Kind SIL).Trace).length
      = (if Kind ≠ TUKind.SIL ∧ ParseOnly = false then 1 else 0) ∧
    ∃ head rest,
      (buildSingleTranslationUnit E fuel Context World OutputName BufferIDs ParseOnly
        AllowBuiltinModule Kind SIL).Trace = head ++ rest ∧
      head.length = (if Kind ≠ TUKind.SIL ∧ ParseOnly = false then 1 else 0) ∧
      (autoImportCalls head).length = head.length ∧
      autoImportCalls rest = [] ∧
      parseCalls rest = parseCalls (buildSingleTranslationUnit E fuel Context World
        OutputName BufferIDs ParseOnly AllowBuiltinModule Kind SIL).Trace := by
  obtain ⟨rest, hrest, hnone⟩ := buildSingleTranslationUnit_trace_ext E fuel Context World
    OutputName BufferIDs ParseOnly AllowBuiltinModule Kind SIL
  have hhead : (autoImport E World
      (createTranslationUnit E Context OutputName AllowBuiltinModule Kind).2.2
      ParseOnly Kind).Trace.length = (if Kind ≠ TUKind.SIL ∧ ParseOnly = false then 1 else 0) ∧
      (autoImportCalls (autoImport E World
        (createTranslationUnit E Context OutputName AllowBuiltinModule Kind).2.2
        ParseOnly Kind).Trace).length = (autoImport E World
        (createTranslationUnit E Context OutputName AllowBuiltinModule Kind).2.2
        ParseOnly Kind).Trace.length ∧
      parseCalls (autoImport E World
        (createTranslationUnit E Context OutputName AllowBuiltinModule Kind).2.2
        ParseOnly Kind).Trace = [] := by
    unfold autoImport
    split_ifs <;> simp [autoImportCalls, parseCalls, Event.asAutoImport, Event.asParseCall]
  refine ⟨?_, _, rest, hrest, hhead.1, hhead.2.1, hnone, ?_⟩
  · rw [hrest]
    simp only [autoImportCalls, List.filterMap_append, List.length_append] at *
    rw [hnone, hhead.2.1, hhead.1]
    simp
  · rw [hrest]
    simp only [parseCalls, List.filterMap_append] at *
    rw [hhead.2.2]
    simp

/-! ## The pump -/

/-- C7: if the parser keeps its contract on the pumped buffer (from any offset within
the buffer it leaves the offset no smaller, no larger than the buffer size, and strictly
larger whenever it does not reach the end), a call with one buffer returns the unit as
soon as the fuel exceeds the buffer size, and the result is then the same for all such
fuel: the loop ends after at most `size + 1` iterations. -/
theorem buildSingleTranslationUnit_pump_terminates {σ : Type} (E : Collaborators σ)
    (fuel : Nat) (Context : ASTContext) (World : σ) (OutputName : String) (BufferID : Nat)
    (ParseOnly AllowBuiltinModule : Bool) (Kind : TUKind) (SIL : Option SILModule)
    (hcontract : ∀ (w : σ) (TU : TranslationUnit) (off : Nat),
      off ≤ E.getBufferSize BufferID →
      off ≤ (E.parseIntoTranslationUnit w TU BufferID off SIL).BufferOffset ∧
      (E.parseIntoTranslationUnit w TU BufferID off SIL).BufferOffset
        ≤ E.getBufferSize BufferID ∧
      ((E.parseIntoTranslationUnit w TU BufferID off SIL).BufferOffset
          ≠ E.getBufferSize BufferID →
        off < (E.parseIntoTranslationUnit w TU BufferID off SIL).BufferOffset))
    (hfuel : E.getBufferSize BufferID < fuel) :
    (buildSingleTranslationUnit E fuel Context World OutputName [BufferID] ParseOnly
        AllowBuiltinModule Kind SIL).Ret = Outcome.returned ∧
    (buildSingleTranslationUnit E fuel Context World OutputName [BufferID] ParseOnly
        AllowBuiltinModule Kind SIL).returnedUnit
      = some (buildSingleTranslationUnit E fuel Context World OutputName [BufferID]
          ParseOnly AllowBuiltinModule Kind SIL).TU ∧
    buildSingleTranslationUnit E fuel Context World OutputName [BufferID] ParseOnly
        AllowBuiltinModule Kind SIL
      = buildSingleTranslationUnit E (E.getBufferSize BufferID + 1) Context World OutputName
          [BufferID] ParseOnly AllowBuiltinModule Kind SIL := by
  have hstart := pumpStart_facts E Context World OutputName BufferID ParseOnly
    AllowBuiltinModule Kind
  have hterm : ∀ f, E.getBufferSize BufferID < f →
      (pumpLoop E ParseOnly BufferID SIL (E.getBufferSize BufferID) f
        (pumpStart E Context World OutputName BufferID ParseOnly AllowBuiltinModule
          Kind)).2 = true := fun f hf =>
    pumpLoop_terminates E ParseOnly BufferID SIL _ hcontract f _
      (by rw [hstart.2.2.1]; exact Nat.zero_le _) (by rw [hstart.2.2.1]; simpa using hf)
  have hret := (buildSingleTranslationUnit_single_returned E fuel Context World OutputName
    BufferID ParseOnly AllowBuiltinModule Kind SIL).2 (hterm fuel hfuel)
  refine ⟨hret, by simp [BuildResult.returnedUnit, hret], ?_⟩
  have h1 := hterm (E.getBufferSize BufferID + 1) (Nat.lt_succ_self _)
  obtain ⟨_, hle1, hall1⟩ := pumpLoop_fuel E ParseOnly BufferID SIL _ _ _ h1
  rw [buildSingleTranslationUnit_single, buildSingleTranslationUnit_single]
  rw [hall1 fuel (by omega)]

/-- Witness of C7: a parser that consumes two bytes per call on a five-byte buffer, with
fuel 6. -/
theorem buildSingleTranslationUnit_pump_terminates_witness :
    ((∀ (w : Unit) (TU : TranslationUnit) (off : Nat),
      off ≤ (stepping (fun _ => 5) [100]).getBufferSize 0 →
      off ≤ ((stepping (fun _ => 5) [100]).parseIntoTranslationUnit w TU 0 off none).BufferOffset ∧
      ((stepping (fun _ => 5) [100]).parseIntoTranslationUnit w TU 0 off none).BufferOffset
        ≤ (stepping (fun _ => 5) [100]).getBufferSize 0 ∧
      (((stepping (fun _ => 5) [100]).parseIntoTranslationUnit w TU 0 off none).BufferOffset
          ≠ (stepping (fun _ => 5) [100]).getBufferSize 0 →
        off < ((stepping (fun _ => 5) [100]).parseIntoTranslationUnit w TU 0 off none).BufferOffset)) ∧
      (stepping (fun _ => 5) [100]).getBufferSize 0 < 6) ∧
    ((buildSingleTranslationUnit (stepping (fun _ => 5) [100]) 6 emptyContext () "a.swift" [0]
        false false TUKind.Main none).Ret = Outcome.returned ∧
    (buildSingleTranslationUnit (stepping (fun _ => 5) [100]) 6 emptyContext () "a.swift" [0]
        false false TUKind.Main none).returnedUnit
      = some (buildSingleTranslationUnit (stepping (fun _ => 5) [100]) 6 emptyContext ()
          "a.swift" [0] false false TUKind.Main none).TU ∧
    buildSingleTranslationUnit (stepping (fun _ => 5) [100]) 6 emptyContext () "a.swift" [0]
        false false TUKind.Main none
      = buildSingleTranslationUnit (stepping (fun _ => 5) [100])
          ((stepping (fun _ => 5) [100]).getBufferSize 0 + 1) emptyContext () "a.swift" [0]
          false false TUKind.Main none) :=
  ⟨⟨fun _ _ off h => by simp only [stepping] at h ⊢; omega, by decide⟩,
   buildSingleTranslationUnit_pump_terminates (stepping (fun _ => 5) [100]) 6 emptyContext ()
     "a.swift" 0 false false TUKind.Main none
     (fun _ _ off h => by simp only [stepping] at h ⊢; omega) (by decide)⟩

/-- The pump runs to its end, in the state reached after `n + 1` iterations, when the
first `n` iterations leave the offset away from the buffer size, the next one leaves
it at the buffer size, and the fuel exceeds `n`. -/
theorem pumpLoop_of_iter {σ : Type} (E : Collaborators σ) (ParseOnly : Bool)
    (BufferID : Nat) (SIL : Option SILModule) (Size : Nat) :
    ∀ (n fuel : Nat) (s : BuildState σ),
      (∀ k, k < n → (pumpIter E ParseOnly BufferID SIL (k + 1) s).BufferOffset ≠ Size) →
      (pumpIter E ParseOnly BufferID SIL (n + 1) s).BufferOffset = Size → n < fuel →
      pumpLoop E ParseOnly BufferID SIL Size fuel s
        = (pumpIter E ParseOnly BufferID SIL (n + 1) s, true) := by
  intro n
  induction n with
  | zero =>
    intro fuel s _ hend hfuel
    cases fuel with
    | zero => omega
    | succ f =>
      have h : (pumpBody E ParseOnly BufferID SIL s).BufferOffset = Size := hend
      simp only [pumpLoop, h, ne_eq, not_true_eq_false, if_false]
      rfl
  | succ n ih =>
    intro fuel s hearly hend hfuel
    cases fuel with
    | zero => omega
    | succ f =>
      have h : (pumpBody E ParseOnly BufferID SIL s).BufferOffset ≠ Size :=
        hearly 0 (Nat.succ_pos n)
      simp only [pumpLoop, h, ne_eq, not_false_eq_true, if_true]
      exact ih f (pumpBody E ParseOnly BufferID SIL s)
        (fun k hk => hearly (k + 1) (by omega)) hend (by omega)

/-- Each iteration of the pump makes one parser call. -/
theorem pumpIter_parseCalls_length {σ : Type} (E : Collaborators σ) (ParseOnly : Bool)
    (BufferID : Nat) (SIL : Option SILModule) : ∀ (n : Nat) (s : BuildState σ),
      (parseCalls (pumpIter E ParseOnly BufferID SIL n s).Trace).length
        = (parseCalls s.Trace).length + n := by
  intro n
  induction n with
  | zero => intro s; rfl
  | succ n ih =>
    intro s
    simp only [pumpIter]
    rw [ih, pumpBody_parseCalls, List.length_append, List.length_singleton]
    omega

/-- C6: take a call with one buffer in which the parser stops away from the end of the
buffer in each of the first `n` iterations of the pump and reaches the end in the next
one. With any fuel above `n` the call returns, having made exactly `n + 1` parser
calls, all for the one buffer: the first starts at offset 0, each later one starts at
the offset the one before it stopped at, and the last stops at the buffer size, which
is the value of the byte-offset cursor on return. -/
theorem buildSingleTranslationUnit_pump_offsets {σ : Type} (E : Collaborators σ)
    (fuel : Nat) (Context : ASTContext) (World : σ) (OutputName : String) (BufferID : Nat)
    (ParseOnly AllowBuiltinModule : Bool) (Kind : TUKind) (SIL : Option SILModule)
    (n : Nat)
    (hearly : ∀ k, k < n →
      (pumpIter E ParseOnly BufferID SIL (k + 1)
        (pumpStart E Context World OutputName BufferID ParseOnly AllowBuiltinModule
          Kind)).BufferOffset ≠ E.getBufferSize BufferID)
    (hend : (pumpIter E ParseOnly BufferID SIL (n + 1)
        (pumpStart E Context World OutputName BufferID ParseOnly AllowBuiltinModule
          Kind)).BufferOffset = E.getBufferSize BufferID)
    (hfuel : n < fuel) :
    (buildSingleTranslationUnit E fuel Context World OutputName [BufferID] ParseOnly
        AllowBuiltinModule Kind SIL).Ret = Outcome.returned ∧
    (parseCalls (buildSingleTranslationUnit E fuel Context World OutputName [BufferID]
        ParseOnly AllowBuiltinModule Kind SIL).Trace).length = n + 1 ∧
    (parseCalls (buildSingleTranslationUnit E fuel Context World OutputName [BufferID]
          ParseOnly AllowBuiltinModule Kind SIL).Trace).map (fun c => c.BufferOffset)
        ++ [E.getBufferSize BufferID]
      = 0 :: (parseCalls (buildSingleTranslationUnit E fuel Context World OutputName
          [BufferID] ParseOnly AllowBuiltinModule Kind SIL).Trace).map
          (fun c => c.EndOffset) ∧
    (∀ c ∈ parseCalls (buildSingleTranslationUnit E fuel Context World OutputName
        [BufferID] ParseOnly AllowBuiltinModule Kind SIL).Trace, c.BufferID = BufferID) ∧
    (buildSingleTranslationUnit E fuel Context World OutputName [BufferID] ParseOnly
        AllowBuiltinModule Kind SIL).BufferOffset = E.getBufferSize BufferID := by
  have hloop := pumpLoop_of_iter E ParseOnly BufferID SIL (E.getBufferSize BufferID) n fuel
    _ hearly hend hfuel
  have hret := (buildSingleTranslationUnit_single_returned E fuel Context World OutputName
    BufferID ParseOnly AllowBuiltinModule Kind SIL).2 (by rw [hloop])
  obtain ⟨early, last, hcalls, _, _, hchain, hids, hoff, _⟩ :=
    pump_offsets_of_returned E fuel Context World OutputName BufferID ParseOnly
      AllowBuiltinModule Kind SIL hret
  refine ⟨hret, ?_, by rw [hcalls]; exact hchain, by rw [hcalls]; exact hids, hoff⟩
  rw [buildSingleTranslationUnit_single]
  simp only [finish]
  rw [hloop, pumpIter_parseCalls_length,
    (pumpStart_facts E Context World OutputName BufferID ParseOnly AllowBuiltinModule
      Kind).1]
  simp

/-- Witness of C6: a scripted parser that stops at offsets 2 and 3 of a four-byte
buffer and reaches the end in its third call. -/
theorem buildSingleTranslationUnit_pump_offsets_witness :
    ((∀ k, k < 2 →
      (pumpIter (scripted (fun _ => 4) [100]) false 0 none (k + 1)
        (pumpStart (scripted (fun _ => 4) [100]) emptyContext
          [([1], 2), ([], 3), ([2, 3], 4)] "a.swift" 0 false false
          TUKind.Main)).BufferOffset ≠ (scripted (fun _ => 4) [100]).getBufferSize 0) ∧
      (pumpIter (scripted (fun _ => 4) [100]) false 0 none (2 + 1)
        (pumpStart (scripted (fun _ => 4) [100]) emptyContext
          [([1], 2), ([], 3), ([2, 3], 4)] "a.swift" 0 false false
          TUKind.Main)).BufferOffset = (scripted (fun _ => 4) [100]).getBufferSize 0 ∧
      2 < 5) ∧
    (buildSingleTranslationUnit (scripted (fun _ => 4) [100]) 5 emptyContext
        [([1], 2), ([], 3), ([2, 3], 4)] "a.swift" [0] false false TUKind.Main none).Ret
      = Outcome.returned ∧
    (parseCalls (buildSingleTranslationUnit (scripted (fun _ => 4) [100]) 5 emptyContext
        [([1], 2), ([], 3), ([2, 3], 4)] "a.swift" [0] false false TUKind.Main
        none).Trace).length = 2 + 1 :=
  ⟨⟨by decide, by decide, by decide⟩,
   ⟨(buildSingleTranslationUnit_pump_offsets (scripted (fun _ => 4) [100]) 5 emptyContext
      [([1], 2), ([], 3), ([2, 3], 4)] "a.swift" 0 false false TUKind.Main none 2
      (by decide) (by decide) (by decide)).1,
    (buildSingleTranslationUnit_pump_offsets (scripted (fun _ => 4) [100]) 5 emptyContext
      [([1], 2), ([], 3), ([2, 3], 4)] "a.swift" 0 false false TUKind.Main none 2
      (by decide) (by decide) (by decide)).2.1⟩⟩

/-- C1, as the code has it: when a call with one buffer and `ParseOnly = false` returns,
there is one checker call per parser call, made on the unit as that parser call left
it; the ranges the checker calls cover tile the final declaration sequence (the first
starts at index 0, each later one starts where the one before it ended, the last ends
at the final declaration count); from the second call on the start index is the
declaration count just before the parser call of the same iteration, while the first
start index is 0 and the count before the first parser call is the number of
auto-imported declarations. With no auto-imported declaration, as for kind `SIL`, every
start index is the count before the parser call of its iteration. -/
theorem buildSingleTranslationUnit_pump_checks {σ : Type} (E : Collaborators σ)
    (fuel : Nat) (Context : ASTContext) (World : σ) (OutputName : String) (BufferID : Nat)
    (AllowBuiltinModule : Bool) (Kind : TUKind) (SIL : Option SILModule)
    (hret : (buildSingleTranslationUnit E fuel Context World OutputName [BufferID] false
      AllowBuiltinModule Kind SIL).Ret = Outcome.returned) :
    (checkCalls (buildSingleTranslationUnit E fuel Context World OutputName [BufferID]
        false AllowBuiltinModule Kind SIL).Trace).map (fun c => c.TU)
      = (parseCalls (buildSingleTranslationUnit E fuel Context World OutputName [BufferID]
        false AllowBuiltinModule Kind SIL).Trace).map (fun p => p.TU.append p.Added) ∧
    checkStarts (buildSingleTranslationUnit E fuel Context World OutputName [BufferID] false
        AllowBuiltinModule Kind SIL).Trace
        ++ [(buildSingleTranslationUnit E fuel Context World OutputName [BufferID] false
          AllowBuiltinModule Kind SIL).TU.Decls.length]
      = 0 :: checkEnds (buildSingleTranslationUnit E fuel Context World OutputName
          [BufferID] false AllowBuiltinModule Kind SIL).Trace ∧
    checkStarts (buildSingleTranslationUnit E fuel Context World OutputName [BufferID] false
        AllowBuiltinModule Kind SIL).Trace
      = 0 :: (declCountsBeforeParse (buildSingleTranslationUnit E fuel Context World
          OutputName [BufferID] false AllowBuiltinModule Kind SIL).Trace).tail ∧
    (declCountsBeforeParse (buildSingleTranslationUnit E fuel Context World OutputName
        [BufferID] false AllowBuiltinModule Kind SIL).Trace).head?
      = some (importedDecls (buildSingleTranslationUnit E fuel Context World OutputName
          [BufferID] false AllowBuiltinModule Kind SIL).Trace).length ∧
    (importedDecls (buildSingleTranslationUnit E fuel Context World OutputName [BufferID]
        false AllowBuiltinModule Kind SIL).Trace = [] →
      checkStarts (buildSingleTranslationUnit E fuel Context World OutputName [BufferID]
          false AllowBuiltinModule Kind SIL).Trace
        = declCountsBeforeParse (buildSingleTranslationUnit E fuel Context World OutputName
          [BufferID] false AllowBuiltinModule Kind SIL).Trace) ∧
    (Kind = TUKind.SIL →
      importedDecls (buildSingleTranslationUnit E fuel Context World OutputName [BufferID]
        false AllowBuiltinModule Kind SIL).Trace = []) := by
  have hstart := pumpStart_facts E Context World OutputName BufferID false
    AllowBuiltinModule Kind
  have hloop := (buildSingleTranslationUnit_single_returned E fuel Context World OutputName
    BufferID false AllowBuiltinModule Kind SIL).1 hret
  have hinv := pumpLoop_inv E false BufferID SIL (E.getBufferSize BufferID)
    (fun s => (checkStarts s.Trace ++ [s.CurTUElem] = 0 :: checkEnds s.Trace ∧
      declCountsBeforeParse s.Trace ++ [s.TU.Decls.length]
        = (importedDecls s.Trace).length :: checkEnds s.Trace ∧
      (checkCalls s.Trace).map (fun c => c.TU)
        = (parseCalls s.Trace).map (fun p => p.TU.append p.Added)) ∧
      importedDecls s.Trace = importedDecls (pumpStart E Context World OutputName BufferID
        false AllowBuiltinModule Kind).Trace)
    (fun s hs _ => ⟨pumpBody_checks_inv E BufferID SIL s hs.1, by
      rw [pumpBody_importedDecls]; exact hs.2⟩)
    fuel (pumpStart E Context World OutputName BufferID false AllowBuiltinModule Kind)
    (by
      simp only [checkStarts, checkEnds, declCountsBeforeParse, hstart.1, hstart.2.1,
        hstart.2.2.2.1, hstart.2.2.2.2.1]
      simp)
  obtain ⟨t, ht, heq, _⟩ := hinv.2 hloop
  obtain ⟨ha, hb, hc⟩ := pumpBody_checks_inv E BufferID SIL t ht.1
  have himp : importedDecls (pumpBody E false BufferID SIL t).Trace
      = importedDecls (pumpStart E Context World OutputName BufferID false
        AllowBuiltinModule Kind).Trace := by
    rw [pumpBody_importedDecls]; exact ht.2
  rw [pumpBody_CurTUElem] at ha
  have hne : checkEnds (pumpBody E false BufferID SIL t).Trace ≠ [] := by
    simp [checkEnds, pumpBody_checkCalls]
  obtain ⟨htail, hhead⟩ := eq_cons_tail_of_concat hne ha hb
  rw [buildSingleTranslationUnit_single]
  simp only [finish]
  rw [heq]
  refine ⟨hc, ha, htail, hhead, fun h0 => ?_, fun hk => ?_⟩
  · rw [h0, List.length_nil] at hhead
    rw [htail]
    cases hd : declCountsBeforeParse (pumpBody E false BufferID SIL t).Trace with
    | nil => rw [hd] at hhead; simp at hhead
    | cons d ds => rw [hd] at hhead; simp at hhead; simp [hhead]
  · rw [himp]
    exact hstart.2.2.2.2.2 hk

/-- Witness of C1: a scripted parser that stops early twice (three iterations), after
an auto-import that appended one declaration. -/
theorem buildSingleTranslationUnit_pump_checks_witness :
    (buildSingleTranslationUnit (scripted (fun _ => 4) [100]) 5 emptyContext
        [([1], 2), ([], 3), ([2, 3], 4)] "a.swift" [0] false false TUKind.Main none).Ret
      = Outcome.returned ∧
    checkStarts (buildSingleTranslationUnit (scripted (fun _ => 4) [100]) 5 emptyContext
        [([1], 2), ([], 3), ([2, 3], 4)] "a.swift" [0] false false TUKind.Main none).Trace
      = 0 :: (declCountsBeforeParse (buildSingleTranslationUnit (scripted (fun _ => 4) [100])
          5 emptyContext [([1], 2), ([], 3), ([2, 3], 4)] "a.swift" [0] false false
          TUKind.Main none).Trace).tail :=
  ⟨by decide,
   (buildSingleTranslationUnit_pump_checks (scripted (fun _ => 4) [100]) 5 emptyContext
     [([1], 2), ([], 3), ([2, 3], 4)] "a.swift" 0 false TUKind.Main none
     (by decide)).2.2.1⟩

/-- Counterexample to C1 as stated: kind `Main`, one four-byte buffer, an auto-import
that appends the declaration 100, and a parser that appends declaration 1 and stops at
offset 2, then appends declaration 2 and reaches the end. The call returns after two
iterations; the checker calls start at indices 0 and 2, but the unit holds 1 and 2
declarations just before the two parser calls: the first check also covers the
auto-imported declaration, which no iteration added. -/
theorem pump_first_check_from_zero_counterexample :
    (buildSingleTranslationUnit (scripted (fun _ => 4) [100]) 5 emptyContext
        [([1], 2), ([2], 4)] "a.swift" [0] false false TUKind.Main none).Ret
      = Outcome.returned ∧
    checkStarts (buildSingleTranslationUnit (scripted (fun _ => 4) [100]) 5 emptyContext
        [([1], 2), ([2], 4)] "a.swift" [0] false false TUKind.Main none).Trace = [0, 2] ∧
    declCountsBeforeParse (buildSingleTranslationUnit (scripted (fun _ => 4) [100]) 5
        emptyContext [([1], 2), ([2], 4)] "a.swift" [0] false false TUKind.Main none).Trace
      = [1, 2] ∧
    (checkCalls (buildSingleTranslationUnit (scripted (fun _ => 4) [100]) 5 emptyContext
        [([1], 2), ([2], 4)] "a.swift" [0] false false TUKind.Main none).Trace).map
        (fun c => c.TU.Decls.drop c.StartElem) = [[100, 1], [2]] ∧
    (parseCalls (buildSingleTranslationUnit (scripted (fun _ => 4) [100]) 5 emptyContext
        [([1], 2), ([2], 4)] "a.swift" [0] false false TUKind.Main none).Trace).map
        (fun c => c.Added) = [[1], [2]] := by
  decide

/-! ## The module identifier, continued -/

/-- C11: for an output name other than `<stdin>` whose stem is not an identifier, and
kind `Main`, `getModuleIdentifier` returns the identifier `main` and leaves the context
as it was: no diagnostic is emitted. -/
theorem getModuleIdentifier_main {σ : Type} (E : Collaborators σ) (OutputName : String)
    (Context : ASTContext) (hname : OutputName ≠ "<stdin>")
    (hstem : E.isIdentifier (E.stem OutputName) = false) :
    getModuleIdentifier E OutputName Context TUKind.Main = ({ str := "main" }, Context) := by
  simp [getModuleIdentifier, hname, hstem, ASTContext.getIdentifier]

/-- Witness of C11: the output name `a-b.swift` (stem `a-b`, not an identifier). -/
theorem getModuleIdentifier_main_witness :
    ("a-b.swift" ≠ "<stdin>" ∧
      (scripted (fun _ => 4) []).isIdentifier ((scripted (fun _ => 4) []).stem "a-b.swift")
        = false) ∧
    getModuleIdentifier (scripted (fun _ => 4) []) "a-b.swift" emptyContext TUKind.Main
      = ({ str := "main" }, emptyContext) :=
  ⟨⟨by decide, by decide⟩,
   getModuleIdentifier_main (scripted (fun _ => 4) []) "a-b.swift" emptyContext
     (by decide) (by decide)⟩

/-- C12: for an output name other than `<stdin>` whose stem is an identifier, and any
kind, `getModuleIdentifier` returns the identifier whose text is the stem and leaves
the context as it was: no diagnostic is emitted. -/
theorem getModuleIdentifier_stem {σ : Type} (E : Collaborators σ) (OutputName : String)
    (Kind : TUKind) (Context : ASTContext) (hname : OutputName ≠ "<stdin>")
    (hstem : E.isIdentifier (E.stem OutputName) = true) :
    getModuleIdentifier E OutputName Context Kind
      = ({ str := E.stem OutputName }, Context) := by
  simp [getModuleIdentifier, hname, hstem, ASTContext.getIdentifier]

/-- Witness of C12: the output name `abc.swift` (stem `abc`) with kind `Library`. -/
theorem getModuleIdentifier_stem_witness :
    ("abc.swift" ≠ "<stdin>" ∧
      (scripted (fun _ => 4) []).isIdentifier ((scripted (fun _ => 4) []).stem "abc.swift")
        = true) ∧
    getModuleIdentifier (scripted (fun _ => 4) []) "abc.swift" emptyContext TUKind.Library
      = ({ str := (scripted (fun _ => 4) []).stem "abc.swift" }, emptyContext) ∧
    (scripted (fun _ => 4) []).stem "abc.swift" = "abc" :=
  ⟨⟨by decide, by decide⟩,
   getModuleIdentifier_stem (scripted (fun _ => 4) []) "abc.swift" TUKind.Library emptyContext
     (by decide) (by decide),
   by decide⟩

/-- C13: `getModuleIdentifier` is a total function, and for every output name and kind
the text of the identifier it returns is `stdin`, `main`, `bad` or a stem the identifier
predicate accepts; with a predicate that accepts the three fixed names, the text of the
returned identifier is accepted by the predicate. -/
theorem getModuleIdentifier_legal {σ : Type} (E : Collaborators σ) (OutputName : String)
    (Kind : TUKind) (Context : ASTContext) (hfixed : AcceptsFixedNames E) :
    E.isIdentifier (getModuleIdentifier E OutputName Context Kind).1.str = true ∧
    ((getModuleIdentifier E OutputName Context Kind).1.str = "stdin" ∨
      (getModuleIdentifier E OutputName Context Kind).1.str = "main" ∨
      (getModuleIdentifier E OutputName Context Kind).1.str = "bad" ∨
      ((getModuleIdentifier E OutputName Context Kind).1.str = E.stem OutputName ∧
        E.isIdentifier (E.stem OutputName) = true)) := by
  obtain ⟨hstdin, hmain, hbad⟩ := hfixed
  by_cases h1 : OutputName = "<stdin>" <;>
    by_cases h2 : E.isIdentifier (E.stem OutputName) = false <;>
    by_cases h3 : Kind = TUKind.Main <;>
    simp_all [getModuleIdentifier, ASTContext.diagnose, ASTContext.getIdentifier]

/-- Witness of C13: identifiers are the non-empty runs of letters; the output name
`a-b.swift` with kind `Library` resolves to `bad`. -/
theorem getModuleIdentifier_legal_witness :
    AcceptsFixedNames (scripted (fun _ => 4) []) ∧
    (scripted (fun _ => 4) []).isIdentifier
      (getModuleIdentifier (scripted (fun _ => 4) []) "a-b.swift" emptyContext
        TUKind.Library).1.str = true :=
  ⟨⟨by decide, by decide, by decide⟩,
   (getModuleIdentifier_legal (scripted (fun _ => 4) []) "a-b.swift" TUKind.Library
     emptyContext ⟨by decide, by decide, by decide⟩).1⟩

/-! ## One buffer or none -/

/-- C16: a call with an empty buffer list stops at the assertion that there is exactly
one input, for any kind, flags and fuel: no unit is returned, and the call log has no
buffer-store query, no parser call and no checker call. -/
theorem buildSingleTranslationUnit_no_buffer {σ : Type} (E : Collaborators σ)
    (fuel : Nat) (Context : ASTContext) (World : σ) (OutputName : String)
    (ParseOnly AllowBuiltinModule : Bool) (Kind : TUKind) (SIL : Option SILModule) :
    (buildSingleTranslationUnit E fuel Context World OutputName [] ParseOnly
        AllowBuiltinModule Kind SIL).Ret
      = Outcome.assertionFailed "This mode only allows one input" ∧
    (buildSingleTranslationUnit E fuel Context World OutputName [] ParseOnly
        AllowBuiltinModule Kind SIL).returnedUnit = none ∧
    bufferQueries (buildSingleTranslationUnit E fuel Context World OutputName []
        ParseOnly AllowBuiltinModule Kind SIL).Trace = [] ∧
    parseCalls (buildSingleTranslationUnit E fuel Context World OutputName []
        ParseOnly AllowBuiltinModule Kind SIL).Trace = [] ∧
    checkCalls (buildSingleTranslationUnit E fuel Context World OutputName []
        ParseOnly AllowBuiltinModule Kind SIL).Trace = [] := by
  simp only [buildSingleTranslationUnit, BuildResult.returnedUnit, List.length_nil, gt_iff_lt,
    Nat.not_lt_zero, if_false, finish, autoImport]
  split_ifs <;>
    simp [bufferQueries, parseCalls, checkCalls, Event.asBufferQuery, Event.asParseCall,
      Event.asCheckCall]

/-- C17, as the code has it: in a call with one buffer every parser call gets the SIL
parser state exactly as the caller's `SIL` pointer has it, for any kind, fuel and
outcome: no state when the pointer is null, the state of that module otherwise. So all
parser calls of one build get the same argument, and with a null pointer none gets a
state. -/
theorem buildSingleTranslationUnit_pump_sil {σ : Type} (E : Collaborators σ)
    (fuel : Nat) (Context : ASTContext) (World : σ) (OutputName : String) (BufferID : Nat)
    (ParseOnly AllowBuiltinModule : Bool) (Kind : TUKind) (SIL : Option SILModule) :
    ∀ c ∈ parseCalls (buildSingleTranslationUnit E fuel Context World OutputName [BufferID]
        ParseOnly AllowBuiltinModule Kind SIL).Trace, c.SIL = SIL := by
  have hstart := pumpStart_facts E Context World OutputName BufferID ParseOnly
    AllowBuiltinModule Kind
  have hstep : ∀ s : BuildState σ, (∀ c ∈ parseCalls s.Trace, c.SIL = SIL) →
      ∀ c ∈ parseCalls (pumpBody E ParseOnly BufferID SIL s).Trace, c.SIL = SIL := by
    intro s hs c hc
    rw [pumpBody_parseCalls] at hc
    rcases List.mem_append.1 hc with hc | hc
    · exact hs c hc
    · rw [List.mem_singleton] at hc
      subst hc
      rfl
  have hinv := pumpLoop_inv E ParseOnly BufferID SIL (E.getBufferSize BufferID)
    (fun s => ∀ c ∈ parseCalls s.Trace, c.SIL = SIL) (fun s hs _ => hstep s hs)
    fuel (pumpStart E Context World OutputName BufferID ParseOnly AllowBuiltinModule Kind)
    (by simp only [hstart.1]; simp)
  rw [buildSingleTranslationUnit_single]
  simp only [finish]
  cases hb : (pumpLoop E ParseOnly BufferID SIL (E.getBufferSize BufferID) fuel
      (pumpStart E Context World OutputName BufferID ParseOnly AllowBuiltinModule Kind)).2
  · exact hinv.1 hb
  · obtain ⟨t, ht, heq, _⟩ := hinv.2 hb
    rw [heq]
    exact hstep t ht

/-- Witness of C17: one buffer of kind `SIL` built with the SIL module at address 7;
the one parser call gets the state of that module. -/
theorem buildSingleTranslationUnit_pump_sil_witness :
    ({ TU := { Name := { str := "a" }, Comp := 0, Kind := TUKind.SIL,
               HasBuiltinModuleAccess := false, Decls := [] },
       BufferID := 0, BufferOffset := 0, SIL := some 7, Added := [1], EndOffset := 4 }
        ∈ parseCalls (buildSingleTranslationUnit (scripted (fun _ => 4) []) 5 emptyContext
          [([1], 4)] "a.sil" [0] false false TUKind.SIL (some 7)).Trace) ∧
    ({ TU := { Name := { str := "a" }, Comp := 0, Kind := TUKind.SIL,
               HasBuiltinModuleAccess := false, Decls := [] },
       BufferID := 0, BufferOffset := 0, SIL := some 7, Added := [1],
       EndOffset := 4 } : ParseCall).SIL = some 7 :=
  ⟨by decide,
   buildSingleTranslationUnit_pump_sil (scripted (fun _ => 4) []) 5 emptyContext [([1], 4)]
     "a.sil" 0 false false TUKind.SIL (some 7) _ (by decide)⟩

/-- Counterexample to C17 as stated: one buffer of kind `Library`, built with a SIL
module (address 7) passed by the caller. The call returns after one parser call, and
that call got the SIL parser state although the kind is not `SIL`. -/
theorem library_pump_gets_sil_state_counterexample :
    (buildSingleTranslationUnit (scripted (fun _ => 4) []) 5 emptyContext [([1], 4)]
        "a.swift" [0] false false TUKind.Library (some 7)).Ret = Outcome.returned ∧
    (parseCalls (buildSingleTranslationUnit (scripted (fun _ => 4) []) 5 emptyContext
        [([1], 4)] "a.swift" [0] false false TUKind.Library (some 7)).Trace).map
        (fun c => c.SIL) = [some 7] := by
  decide

/-! ## The session registry -/

/-- The identifier `getModuleIdentifier` returns does not depend on the context, and
the context it returns is the one it was given plus the diagnostics it emits. -/
theorem getModuleIdentifier_indep {σ : Type} (E : Collaborators σ) (OutputName : String)
    (Kind : TUKind) (Context Context2 : ASTContext) :
    (getModuleIdentifier E OutputName Context Kind).1
        = (getModuleIdentifier E OutputName Context2 Kind).1 ∧
      (getModuleIdentifier E OutputName Context Kind).2
        = { Context with
            Diags := Context.Diags ++
              (getModuleIdentifier E OutputName emptyContext Kind).2.Diags } := by
  refine ⟨?_, ?_⟩ <;>
    by_cases h1 : OutputName = "<stdin>" <;>
    by_cases h2 : E.isIdentifier (E.stem OutputName) = false <;>
    by_cases h3 : Kind = TUKind.Main <;>
    simp [getModuleIdentifier, h1, h2, h3, ASTContext.diagnose, ASTContext.getIdentifier,
      emptyContext]

/-- What lines 67-72 leave behind: the unit is new (its address is the second one
handed out by the call), it is what the registry holds under the text of the resolved
identifier, it has the caller's flag and no declaration, and the only diagnostics added
are those of the identifier resolution. -/
theorem createTranslationUnit_facts {σ : Type} (E : Collaborators σ) (Context : ASTContext)
    (OutputName : String) (AllowBuiltinModule : Bool) (Kind : TUKind) :
    (createTranslationUnit E Context OutputName AllowBuiltinModule Kind).1.lookupModule
        (getModuleIdentifier E OutputName Context Kind).1.str
      = some (createTranslationUnit E Context OutputName AllowBuiltinModule Kind).2.1 ∧
    (createTranslationUnit E Context OutputName AllowBuiltinModule Kind).2.1
      = Context.NumAllocated + 1 ∧
    (createTranslationUnit E Context OutputName AllowBuiltinModule Kind).1.Diags
      = Context.Diags ++ (getModuleIdentifier E OutputName emptyContext Kind).2.Diags ∧
    (createTranslationUnit E Context OutputName AllowBuiltinModule Kind).1.NumAllocated
      = Context.NumAllocated + 2 ∧
    (createTranslationUnit E Context OutputName AllowBuiltinModule Kind).2.2
      = { Name := (getModuleIdentifier E OutputName Context Kind).1,
          Comp := Context.NumAllocated, Kind := Kind,
          HasBuiltinModuleAccess := AllowBuiltinModule, Decls := [] } := by
  have h := getModuleIdentifier_indep E OutputName Kind Context.allocate.2 Context
  have hd : Context.allocate.2.Diags = Context.Diags := rfl
  have hn : Context.allocate.2.NumAllocated = Context.NumAllocated + 1 := rfl
  simp only [createTranslationUnit, ASTContext.lookupModule, ASTContext.setLoadedModule]
  rw [h.1, h.2]
  simp [ASTContext.allocate, List.lookup]

/-- The context and the address in the result of a call are those lines 67-72 left. -/
theorem buildSingleTranslationUnit_context {σ : Type} (E : Collaborators σ) (fuel : Nat)
    (Context : ASTContext) (World : σ) (OutputName : String) (BufferIDs : List Nat)
    (ParseOnly AllowBuiltinModule : Bool) (Kind : TUKind) (SIL : Option SILModule) :
    (buildSingleTranslationUnit E fuel Context World OutputName BufferIDs ParseOnly
        AllowBuiltinModule Kind SIL).Context
      = (createTranslationUnit E Context OutputName AllowBuiltinModule Kind).1 ∧
    (buildSingleTranslationUnit E fuel Context World OutputName BufferIDs ParseOnly
        AllowBuiltinModule Kind SIL).Addr
      = (createTranslationUnit E Context OutputName AllowBuiltinModule Kind).2.1 := by
  unfold buildSingleTranslationUnit
  by_cases hmany : BufferIDs.length > 1
  · simp only [hmany, if_true]
    split_ifs <;> exact ⟨rfl, rfl⟩
  · simp only [hmany, if_false]
    split
    · split_ifs <;> exact ⟨rfl, rfl⟩
    · exact ⟨rfl, rfl⟩

/-- The pump only appends declarations to the unit. -/
theorem pumpLoop_TU_append {σ : Type} (E : Collaborators σ) (ParseOnly : Bool)
    (BufferID : Nat) (SIL : Option SILModule) (Size : Nat) :
    ∀ (fuel : Nat) (s : BuildState σ),
      ∃ ds, (pumpLoop E ParseOnly BufferID SIL Size fuel s).1.TU = s.TU.append ds := by
  intro fuel
  induction fuel with
  | zero => intro s; exact ⟨[], by simp [pumpLoop, TranslationUnit.append]⟩
  | succ n ih =>
    intro s
    by_cases h : (pumpBody E ParseOnly BufferID SIL s).BufferOffset = Size
    · exact ⟨_, by
        simp only [pumpLoop, h, ne_eq, not_true_eq_false, if_false]
        exact pumpBody_TU E ParseOnly BufferID SIL s⟩
    · obtain ⟨ds, hds⟩ := ih (pumpBody E ParseOnly BufferID SIL s)
      refine ⟨(E.parseIntoTranslationUnit s.World s.TU BufferID s.BufferOffset SIL).Added
        ++ ds, ?_⟩
      simp only [pumpLoop, h, ne_eq, not_false_eq_true, if_true]
      rw [hds, pumpBody_TU]
      simp [TranslationUnit.append]

/-- The file loop only appends declarations to the unit. -/
theorem parseAllFiles_TU_append {σ : Type} (E : Collaborators σ) :
    ∀ (ids : List Nat) (s : BuildState σ),
      ∃ ds, (parseAllFiles E ids s).1.TU = s.TU.append ds := by
  intro ids
  induction ids with
  | nil => intro s; exact ⟨[], by simp [parseAllFiles, TranslationUnit.append]⟩
  | cons id ids ih =>
    intro s
    by_cases h : (parseFile E id s).BufferOffset = E.getBufferSize id
    · obtain ⟨ds, hds⟩ := ih (parseFile E id s)
      refine ⟨(E.parseIntoTranslationUnit s.World s.TU id 0 none).Added ++ ds, ?_⟩
      simp only [parseAllFiles, h, if_true]
      rw [hds]
      simp [parseFile, TranslationUnit.append]
    · exact ⟨_, by simp only [parseAllFiles, h, if_false]; rfl⟩

/-- The unit in the result of a call is the unit lines 67-72 created with declarations
appended: its name, kind, component and builtin-access flag are as created. -/
theorem buildSingleTranslationUnit_TU_append {σ : Type} (E : Collaborators σ) (fuel : Nat)
    (Context : ASTContext) (World : σ) (OutputName : String) (BufferIDs : List Nat)
    (ParseOnly AllowBuiltinModule : Bool) (Kind : TUKind) (SIL : Option SILModule) :
    ∃ ds, (buildSingleTranslationUnit E fuel Context World OutputName BufferIDs ParseOnly
        AllowBuiltinModule Kind SIL).TU
      = (createTranslationUnit E Context OutputName AllowBuiltinModule Kind).2.2.append ds := by
  have hauto : ∃ ds, (autoImport E World
      (createTranslationUnit E Context OutputName AllowBuiltinModule Kind).2.2 ParseOnly
      Kind).TU
      = (createTranslationUnit E Context OutputName AllowBuiltinModule Kind).2.2.append ds := by
    unfold autoImport
    split_ifs
    · exact ⟨_, rfl⟩
    · exact ⟨[], by simp [TranslationUnit.append]⟩
  obtain ⟨d0, hd0⟩ := hauto
  unfold buildSingleTranslationUnit
  by_cases hmany : BufferIDs.length > 1
  · simp only [hmany, if_true]
    obtain ⟨ds, hds⟩ := parseAllFiles_TU_append E BufferIDs (autoImport E World
      (createTranslationUnit E Context OutputName AllowBuiltinModule Kind).2.2 ParseOnly Kind)
    have hall : (parseAllFiles E BufferIDs (autoImport E World
        (createTranslationUnit E Context OutputName AllowBuiltinModule Kind).2.2 ParseOnly
        Kind)).1.TU
        = (createTranslationUnit E Context OutputName AllowBuiltinModule Kind).2.2.append
          (d0 ++ ds) := by
      rw [hds, hd0]; simp [TranslationUnit.append]
    split_ifs
    · exact ⟨d0, hd0⟩
    · exact ⟨_, hall⟩
    · exact ⟨_, hall⟩
    · exact ⟨_, hall⟩
  · simp only [hmany, if_false]
    split
    · rename_i BufferID
      obtain ⟨ds, hds⟩ := pumpLoop_TU_append E ParseOnly BufferID SIL
        (E.getBufferSize BufferID) fuel
        { autoImport E World
            (createTranslationUnit E Context OutputName AllowBuiltinModule Kind).2.2
            ParseOnly Kind with
          Trace := (autoImport E World
            (createTranslationUnit E Context OutputName AllowBuiltinModule Kind).2.2
            ParseOnly Kind).Trace ++ [Event.getMemoryBuffer BufferID] }
      have hall : (pumpLoop E ParseOnly BufferID SIL (E.getBufferSize BufferID) fuel
          { autoImport E World
              (createTranslationUnit E Context OutputName AllowBuiltinModule Kind).2.2
              ParseOnly Kind with
            Trace := (autoImport E World
              (createTranslationUnit E Context OutputName AllowBuiltinModule Kind).2.2
              ParseOnly Kind).Trace ++ [Event.getMemoryBuffer BufferID] }).1.TU
          = (createTranslationUnit E Context OutputName AllowBuiltinModule Kind).2.2.append
            (d0 ++ ds) := by
        rw [hds]
        simp only [hd0]
        simp [TranslationUnit.append]
      split_ifs
      · exact ⟨_, hall⟩
      · exact ⟨_, hall⟩
    · exact ⟨d0, hd0⟩

/-- What a call does apart from the registry does not depend on what the registry
held: with any other contents of `LoadedModules` the call ends the same way, with the
same call log, unit, world and diagnostics. -/
theorem buildSingleTranslationUnit_registry_indep {σ : Type} (E : Collaborators σ)
    (fuel : Nat) (Context : ASTContext) (World : σ) (OutputName : String)
    (BufferIDs : List Nat) (ParseOnly AllowBuiltinModule : Bool) (Kind : TUKind)
    (SIL : Option SILModule) (Modules : List (String × Nat)) :
    (buildSingleTranslationUnit E fuel { Context with LoadedModules := Modules } World
        OutputName BufferIDs ParseOnly AllowBuiltinModule Kind SIL).Ret
      = (buildSingleTranslationUnit E fuel Context World OutputName BufferIDs ParseOnly
        AllowBuiltinModule Kind SIL).Ret ∧
    (buildSingleTranslationUnit E fuel { Context with LoadedModules := Modules } World
        OutputName BufferIDs ParseOnly AllowBuiltinModule Kind SIL).Trace
      = (buildSingleTranslationUnit E fuel Context World OutputName BufferIDs ParseOnly
        AllowBuiltinModule Kind SIL).Trace ∧
    (buildSingleTranslationUnit E fuel { Context with LoadedModules := Modules } World
        OutputName BufferIDs ParseOnly AllowBuiltinModule Kind SIL).TU
      = (buildSingleTranslationUnit E fuel Context World OutputName BufferIDs ParseOnly
        AllowBuiltinModule Kind SIL).TU ∧
    (buildSingleTranslationUnit E fuel { Context with LoadedModules := Modules } World
        OutputName BufferIDs ParseOnly AllowBuiltinModule Kind SIL).Context.Diags
      = (buildSingleTranslationUnit E fuel Context World OutputName BufferIDs ParseOnly
        AllowBuiltinModule Kind SIL).Context.Diags := by
  have hc := createTranslationUnit_facts E Context OutputName AllowBuiltinModule Kind
  have hc2 := createTranslationUnit_facts E { Context with LoadedModules := Modules }
    OutputName AllowBuiltinModule Kind
  have hid := (getModuleIdentifier_indep E OutputName Kind
    { Context with LoadedModules := Modules } Context).1
  have hTU : (createTranslationUnit E { Context with LoadedModules := Modules } OutputName
      AllowBuiltinModule Kind).2.2
      = (createTranslationUnit E Context OutputName AllowBuiltinModule Kind).2.2 := by
    rw [hc.2.2.2.2, hc2.2.2.2.2, hid]
  have hctx := buildSingleTranslationUnit_context E fuel Context World OutputName BufferIDs
    ParseOnly AllowBuiltinModule Kind SIL
  have hctx2 := buildSingleTranslationUnit_context E fuel
    { Context with LoadedModules := Modules } World OutputName BufferIDs ParseOnly
    AllowBuiltinModule Kind SIL
  refine ⟨?_, ?_, ?_, by rw [hctx.1, hctx2.1, hc.2.2.1, hc2.2.2.1]⟩ <;>
  · unfold buildSingleTranslationUnit
    simp only [hTU]
    by_cases hmany : BufferIDs.length > 1
    · simp only [hmany, if_true]
      split_ifs <;> rfl
    · simp only [hmany, if_false]
      split
      · split_ifs <;> rfl
      · rfl

/-- The number of auto-import calls in the log of a call. -/
theorem autoImportCalls_length {σ : Type} (E : Collaborators σ) (fuel : Nat)
    (Context : ASTContext) (World : σ) (OutputName : String) (BufferIDs : List Nat)
    (ParseOnly AllowBuiltinModule : Bool) (Kind : TUKind) (SIL : Option SILModule) :
    (autoImportCalls (buildSingleTranslationUnit E fuel Context World OutputName BufferIDs
        ParseOnly AllowBuiltinModule Kind SIL).Trace).length
      = (if Kind ≠ TUKind.SIL ∧ ParseOnly = false then 1 else 0) := by
  obtain ⟨rest, hrest, hnone⟩ := buildSingleTranslationUnit_trace_ext E fuel Context World
    OutputName BufferIDs ParseOnly AllowBuiltinModule Kind SIL
  rw [hrest]
  simp only [autoImportCalls, List.filterMap_append, List.length_append] at *
  rw [hnone]
  unfold autoImport
  split_ifs <;> simp [Event.asAutoImport]

/-- The ways a call can fail an assertion. -/
theorem buildSingleTranslationUnit_failures {σ : Type} (E : Collaborators σ) (fuel : Nat)
    (Context : ASTContext) (World : σ) (OutputName : String) (BufferIDs : List Nat)
    (ParseOnly AllowBuiltinModule : Bool) (Kind : TUKind) (SIL : Option SILModule)
    (Msg : String)
    (hfail : (buildSingleTranslationUnit E fuel Context World OutputName BufferIDs ParseOnly
      AllowBuiltinModule Kind SIL).Ret = Outcome.assertionFailed Msg) :
    (BufferIDs.length > 1 ∧ Kind ≠ TUKind.Library ∧
      Msg = "Multiple file mode can't handle early returns from the parser") ∨
    (BufferIDs.length > 1 ∧ Kind = TUKind.Library ∧ Msg = "Parser returned early?") ∨
    (BufferIDs = [] ∧ Msg = "This mode only allows one input") := by
  unfold buildSingleTranslationUnit at hfail
  by_cases hmany : BufferIDs.length > 1
  · simp only [hmany, if_true] at hfail
    by_cases hkind : Kind = TUKind.Library
    · simp only [hkind, ne_eq, not_true_eq_false, if_false] at hfail
      split_ifs at hfail
      · simp only [finish, Outcome.assertionFailed.injEq] at hfail
        exact Or.inr (Or.inl ⟨hmany, hkind, hfail.symm⟩)
      · simp [finish] at hfail
      · simp [finish] at hfail
    · simp only [hkind, ne_eq, not_false_eq_true, if_true, finish,
        Outcome.assertionFailed.injEq] at hfail
      exact Or.inl ⟨hmany, hkind, hfail.symm⟩
  · simp only [hmany, if_false] at hfail
    match BufferIDs, hmany, hfail with
    | [], _, hfail =>
      simp only [finish, Outcome.assertionFailed.injEq] at hfail
      exact Or.inr (Or.inr ⟨rfl, hfail.symm⟩)
    | [b], _, hfail =>
      simp only at hfail
      split_ifs at hfail <;> simp [finish] at hfail
    | _ :: _ :: _, hmany, _ => simp at hmany

/-- C14: take two calls in one session whose output names resolve to the same
identifier. After the first call the registry holds the first unit under the text of
that identifier, whatever it held before. After the second call it holds the second
unit there, which is another unit than the first; the second call emits no diagnostic
but those of its identifier resolution, and it ends the same way whatever the registry
held when it started. -/
theorem buildTwo_registers {σ : Type} (E : Collaborators σ) (Context : ASTContext)
    (World : σ) (q1 q2 : BuildRequest)
    (hsame : (getModuleIdentifier E q1.OutputName Context q1.Kind).1
      = (getModuleIdentifier E q2.OutputName Context q2.Kind).1) :
    (buildTwo E Context World q1 q2).1.Context.lookupModule
        (getModuleIdentifier E q1.OutputName Context q1.Kind).1.str
      = some (buildTwo E Context World q1 q2).1.Addr ∧
    (buildTwo E Context World q1 q2).2.Context.lookupModule
        (getModuleIdentifier E q1.OutputName Context q1.Kind).1.str
      = some (buildTwo E Context World q1 q2).2.Addr ∧
    (buildTwo E Context World q1 q2).2.Addr ≠ (buildTwo E Context World q1 q2).1.Addr ∧
    (buildTwo E Context World q1 q2).2.TU.Name
      = (getModuleIdentifier E q1.OutputName Context q1.Kind).1 ∧
    (buildTwo E Context World q1 q2).2.Context.Diags
      = (buildTwo E Context World q1 q2).1.Context.Diags
        ++ (getModuleIdentifier E q2.OutputName emptyContext q2.Kind).2.Diags ∧
    ∀ Modules : List (String × Nat),
      (buildSingleTranslationUnit E q2.fuel
          { (buildTwo E Context World q1 q2).1.Context with LoadedModules := Modules }
          (buildTwo E Context World q1 q2).1.World q2.OutputName q2.BufferIDs q2.ParseOnly
          q2.AllowBuiltinModule q2.Kind q2.SIL).Ret
        = (buildTwo E Context World q1 q2).2.Ret := by
  have hx1 := buildSingleTranslationUnit_context E q1.fuel Context World q1.OutputName
    q1.BufferIDs q1.ParseOnly q1.AllowBuiltinModule q1.Kind q1.SIL
  have hc1 := createTranslationUnit_facts E Context q1.OutputName q1.AllowBuiltinModule
    q1.Kind
  have hx2 := buildSingleTranslationUnit_context E q2.fuel
    (buildTwo E Context World q1 q2).1.Context (buildTwo E Context World q1 q2).1.World
    q2.OutputName q2.BufferIDs q2.ParseOnly q2.AllowBuiltinModule q2.Kind q2.SIL
  have hc2 := createTranslationUnit_facts E (buildTwo E Context World q1 q2).1.Context
    q2.OutputName q2.AllowBuiltinModule q2.Kind
  have hid := (getModuleIdentifier_indep E q2.OutputName q2.Kind
    (buildTwo E Context World q1 q2).1.Context Context).1
  obtain ⟨ds, hds⟩ := buildSingleTranslationUnit_TU_append E q2.fuel
    (buildTwo E Context World q1 q2).1.Context (buildTwo E Context World q1 q2).1.World
    q2.OutputName q2.BufferIDs q2.ParseOnly q2.AllowBuiltinModule q2.Kind q2.SIL
  have h2 : (buildTwo E Context World q1 q2).2
      = buildSingleTranslationUnit E q2.fuel (buildTwo E Context World q1 q2).1.Context
        (buildTwo E Context World q1 q2).1.World q2.OutputName q2.BufferIDs q2.ParseOnly
        q2.AllowBuiltinModule q2.Kind q2.SIL := rfl
  have h1 : (buildTwo E Context World q1 q2).1
      = buildSingleTranslationUnit E q1.fuel Context World q1.OutputName q1.BufferIDs
        q1.ParseOnly q1.AllowBuiltinModule q1.Kind q1.SIL := rfl
  have hn1 : (buildTwo E Context World q1 q2).1.Context.NumAllocated
      = Context.NumAllocated + 2 := by rw [h1, hx1.1]; exact hc1.2.2.2.1
  have ha1 : (buildTwo E Context World q1 q2).1.Addr = Context.NumAllocated + 1 := by
    rw [h1, hx1.2]; exact hc1.2.1
  have ha2 : (buildTwo E Context World q1 q2).2.Addr = Context.NumAllocated + 3 := by
    rw [h2, hx2.2, hc2.2.1, hn1]
  refine ⟨?_, ?_, by rw [ha1, ha2]; omega, ?_, ?_, fun Modules => ?_⟩
  · rw [h1, hx1.1, hx1.2]
    exact hc1.1
  · rw [h2, hx2.1, hx2.2, hsame, ← hid]
    exact hc2.1
  · rw [h2, hds, hc2.2.2.2.2, hid, hsame]
    rfl
  · rw [h2, hx2.1]
    exact hc2.2.2.1
  · rw [h2]
    exact (buildSingleTranslationUnit_registry_indep E q2.fuel
      (buildTwo E Context World q1 q2).1.Context (buildTwo E Context World q1 q2).1.World
      q2.OutputName q2.BufferIDs q2.ParseOnly q2.AllowBuiltinModule q2.Kind q2.SIL
      Modules).1

/-- Witness of C14: the output names `a.swift` and `a.sil`, both with stem `a`, built
one after the other from the empty context. -/
theorem buildTwo_registers_witness :
    (getModuleIdentifier (scripted (fun _ => 4) []) "a.swift" emptyContext TUKind.Main).1
      = (getModuleIdentifier (scripted (fun _ => 4) []) "a.sil" emptyContext TUKind.SIL).1 ∧
    (buildTwo (scripted (fun _ => 4) []) emptyContext []
        { fuel := 5, OutputName := "a.swift", BufferIDs := [0], ParseOnly := false,
          AllowBuiltinModule := false, Kind := TUKind.Main, SIL := none }
        { fuel := 5, OutputName := "a.sil", BufferIDs := [1], ParseOnly := false,
          AllowBuiltinModule := false, Kind := TUKind.SIL, SIL := some 7 }).2.Context.lookupModule
        "a"
      = some (buildTwo (scripted (fun _ => 4) []) emptyContext []
        { fuel := 5, OutputName := "a.swift", BufferIDs := [0], ParseOnly := false,
          AllowBuiltinModule := false, Kind := TUKind.Main, SIL := none }
        { fuel := 5, OutputName := "a.sil", BufferIDs := [1], ParseOnly := false,
          AllowBuiltinModule := false, Kind := TUKind.SIL, SIL := some 7 }).2.Addr :=
  ⟨by decide,
   (buildTwo_registers (scripted (fun _ => 4) []) emptyContext []
     { fuel := 5, OutputName := "a.swift", BufferIDs := [0], ParseOnly := false,
       AllowBuiltinModule := false, Kind := TUKind.Main, SIL := none }
     { fuel := 5, OutputName := "a.sil", BufferIDs := [1], ParseOnly := false,
       AllowBuiltinModule := false, Kind := TUKind.SIL, SIL := some 7 }
     (by decide)).2.1⟩

/-- C18: when a call fails an assertion (more than one buffer with a kind other than
`Library`, more than one buffer of kind `Library` with one not parsed to its full size,
or no buffer at all), the registry of the context it leaves behind holds the new unit
under the text of the resolved identifier, whatever it held before; the unit has the
caller's builtin-access flag; and the call log has one auto-import call if the kind is
not `SIL` and `ParseOnly` is false, and none otherwise. -/
theorem buildSingleTranslationUnit_failure_state {σ : Type} (E : Collaborators σ)
    (fuel : Nat) (Context : ASTContext) (World : σ) (OutputName : String)
    (BufferIDs : List Nat) (ParseOnly AllowBuiltinModule : Bool) (Kind : TUKind)
    (SIL : Option SILModule) (Msg : String)
    (hfail : (buildSingleTranslationUnit E fuel Context World OutputName BufferIDs ParseOnly
      AllowBuiltinModule Kind SIL).Ret = Outcome.assertionFailed Msg) :
    ((BufferIDs.length > 1 ∧ Kind ≠ TUKind.Library ∧
        Msg = "Multiple file mode can't handle early returns from the parser") ∨
      (BufferIDs.length > 1 ∧ Kind = TUKind.Library ∧ Msg = "Parser returned early?") ∨
      (BufferIDs = [] ∧ Msg = "This mode only allows one input")) ∧
    (buildSingleTranslationUnit E fuel Context World OutputName BufferIDs ParseOnly
        AllowBuiltinModule Kind SIL).returnedUnit = none ∧
    (buildSingleTranslationUnit E fuel Context World OutputName BufferIDs ParseOnly
        AllowBuiltinModule Kind SIL).Context.lookupModule
        (getModuleIdentifier E OutputName Context Kind).1.str
      = some (buildSingleTranslationUnit E fuel Context World OutputName BufferIDs ParseOnly
        AllowBuiltinModule Kind SIL).Addr ∧
    (buildSingleTranslationUnit E fuel Context World OutputName BufferIDs ParseOnly
        AllowBuiltinModule Kind SIL).Addr = Context.NumAllocated + 1 ∧
    (buildSingleTranslationUnit E fuel Context World OutputName BufferIDs ParseOnly
        AllowBuiltinModule Kind SIL).TU.HasBuiltinModuleAccess = AllowBuiltinModule ∧
    (autoImportCalls (buildSingleTranslationUnit E fuel Context World OutputName BufferIDs
        ParseOnly AllowBuiltinModule Kind SIL).Trace).length
      = (if Kind ≠ TUKind.SIL ∧ ParseOnly = false then 1 else 0) := by
  have hx := buildSingleTranslationUnit_context E fuel Context World OutputName BufferIDs
    ParseOnly AllowBuiltinModule Kind SIL
  have hc := createTranslationUnit_facts E Context OutputName AllowBuiltinModule Kind
  obtain ⟨ds, hds⟩ := buildSingleTranslationUnit_TU_append E fuel Context World OutputName
    BufferIDs ParseOnly AllowBuiltinModule Kind SIL
  refine ⟨buildSingleTranslationUnit_failures E fuel Context World OutputName BufferIDs
    ParseOnly AllowBuiltinModule Kind SIL Msg hfail, by simp [BuildResult.returnedUnit, hfail],
    by rw [hx.1, hx.2]; exact hc.1, by rw [hx.2]; exact hc.2.1, ?_,
    autoImportCalls_length E fuel Context World OutputName BufferIDs ParseOnly
      AllowBuiltinModule Kind SIL⟩
  rw [hds, hc.2.2.2.2]
  rfl

/-- Witness of C18: two buffers of kind `Main` from a context whose registry already
holds a unit under `a`; the call fails the first assertion. -/
theorem buildSingleTranslationUnit_failure_state_witness :
    (buildSingleTranslationUnit (scripted (fun _ => 4) [100]) 5
        { Diags := [], LoadedModules := [("a", 1)], NumAllocated := 2 } [] "a.swift" [0, 1]
        false true TUKind.Main none).Ret
      = Outcome.assertionFailed
          "Multiple file mode can't handle early returns from the parser" ∧
    (buildSingleTranslationUnit (scripted (fun _ => 4) [100]) 5
        { Diags := [], LoadedModules := [("a", 1)], NumAllocated := 2 } [] "a.swift" [0, 1]
        false true TUKind.Main none).Context.lookupModule
        (getModuleIdentifier (scripted (fun _ => 4) [100]) "a.swift"
          { Diags := [], LoadedModules := [("a", 1)], NumAllocated := 2 } TUKind.Main).1.str
      = some (buildSingleTranslationUnit (scripted (fun _ => 4) [100]) 5
        { Diags := [], LoadedModules := [("a", 1)], NumAllocated := 2 } [] "a.swift" [0, 1]
        false true TUKind.Main none).Addr ∧
    (buildSingleTranslationUnit (scripted (fun _ => 4) [100]) 5
        { Diags := [], LoadedModules := [("a", 1)], NumAllocated := 2 } [] "a.swift" [0, 1]
        false true TUKind.Main none).Addr = 3 :=
  ⟨by decide,
   (buildSingleTranslationUnit_failure_state (scripted (fun _ => 4) [100]) 5
     { Diags := [], LoadedModules := [("a", 1)], NumAllocated := 2 } [] "a.swift" [0, 1]
     false true TUKind.Main none
     "Multiple file mode can't handle early returns from the parser" (by decide)).2.2.1,
   (buildSingleTranslationUnit_failure_state (scripted (fun _ => 4) [100]) 5
     { Diags := [], LoadedModules := [("a", 1)], NumAllocated := 2 } [] "a.swift" [0, 1]
     false true TUKind.Main none
     "Multiple file mode can't handle early returns from the parser" (by decide)).2.2.2.1⟩

/-! ## One buffer: the pump against the multiple-file branch -/

/-- With `ParseOnly` an iteration of the pump makes no checker call. -/
theorem pumpBody_checkCalls_parseOnly {σ : Type} (E : Collaborators σ) (BufferID : Nat)
    (SIL : Option SILModule) (s : BuildState σ) :
    checkCalls (pumpBody E true BufferID SIL s).Trace = checkCalls s.Trace := by
  simp [pumpBody, checkCalls, List.filterMap_append, Event.asCheckCall]

/-- The multiple-file branch on its own is what a call with more than one buffer runs. -/
theorem buildBatch_eq {σ : Type} (E : Collaborators σ) (fuel : Nat) (Context : ASTContext)
    (World : σ) (OutputName : String) (BufferIDs : List Nat)
    (ParseOnly AllowBuiltinModule : Bool) (Kind : TUKind) (SIL : Option SILModule)
    (hmany : BufferIDs.length > 1) :
    buildSingleTranslationUnit E fuel Context World OutputName BufferIDs ParseOnly
        AllowBuiltinModule Kind SIL
      = buildBatch E Context World OutputName BufferIDs ParseOnly AllowBuiltinModule Kind := by
  simp only [buildSingleTranslationUnit, buildBatch, hmany, if_true]

/-- C19: a call with one buffer runs the pump. With kind `Library`, a null `SIL` pointer
and a parser that goes from offset 0 to the size of the buffer in its first call (an
empty buffer included), the call gives, with any fuel but 0, the very result the
multiple-file branch gives on the one-buffer list: it returns the same unit after the
same collaborator calls, one parser call from offset 0 and then, unless `ParseOnly`, one
checker call from declaration index 0 on the final unit. -/
theorem buildSingleTranslationUnit_single_as_batch {σ : Type} (E : Collaborators σ)
    (fuel : Nat) (Context : ASTContext) (World : σ) (OutputName : String) (BufferID : Nat)
    (ParseOnly AllowBuiltinModule : Bool) (hfuel : 0 < fuel)
    (hwhole : (E.parseIntoTranslationUnit
        (pumpStart E Context World OutputName BufferID ParseOnly AllowBuiltinModule
          TUKind.Library).World
        (pumpStart E Context World OutputName BufferID ParseOnly AllowBuiltinModule
          TUKind.Library).TU BufferID 0 none).BufferOffset = E.getBufferSize BufferID) :
    buildSingleTranslationUnit E fuel Context World OutputName [BufferID] ParseOnly
        AllowBuiltinModule TUKind.Library none
      = finish (createTranslationUnit E Context OutputName AllowBuiltinModule
            TUKind.Library).1
          (createTranslationUnit E Context OutputName AllowBuiltinModule TUKind.Library).2.1
          (pumpBody E ParseOnly BufferID none
            (pumpStart E Context World OutputName BufferID ParseOnly AllowBuiltinModule
              TUKind.Library))
          Outcome.returned ∧
    buildSingleTranslationUnit E fuel Context World OutputName [BufferID] ParseOnly
        AllowBuiltinModule TUKind.Library none
      = buildBatch E Context World OutputName [BufferID] ParseOnly AllowBuiltinModule
          TUKind.Library ∧
    (parseCalls (buildSingleTranslationUnit E fuel Context World OutputName [BufferID]
        ParseOnly AllowBuiltinModule TUKind.Library none).Trace).map
        (fun c => (c.BufferID, c.BufferOffset, c.SIL)) = [(BufferID, 0, none)] ∧
    checkCalls (buildSingleTranslationUnit E fuel Context World OutputName [BufferID]
        ParseOnly AllowBuiltinModule TUKind.Library none).Trace
      = (if ParseOnly then []
         else [{ TU := (buildSingleTranslationUnit E fuel Context World OutputName
                  [BufferID] ParseOnly AllowBuiltinModule TUKind.Library none).TU,
                 StartElem := 0 }]) := by
  have hstart := pumpStart_facts E Context World OutputName BufferID ParseOnly
    AllowBuiltinModule TUKind.Library
  have hoff : (pumpBody E ParseOnly BufferID none
      (pumpStart E Context World OutputName BufferID ParseOnly AllowBuiltinModule
        TUKind.Library)).BufferOffset = E.getBufferSize BufferID := by
    rw [pumpBody_BufferOffset, hstart.2.2.1]
    exact hwhole
  have hloop : pumpLoop E ParseOnly BufferID none (E.getBufferSize BufferID) fuel
      (pumpStart E Context World OutputName BufferID ParseOnly AllowBuiltinModule
        TUKind.Library)
      = (pumpBody E ParseOnly BufferID none
          (pumpStart E Context World OutputName BufferID ParseOnly AllowBuiltinModule
            TUKind.Library), true) := by
    cases fuel with
    | zero => omega
    | succ f => simp only [pumpLoop, hoff, ne_eq, not_true_eq_false, if_false]
  have hpump : buildSingleTranslationUnit E fuel Context World OutputName [BufferID]
      ParseOnly AllowBuiltinModule TUKind.Library none
      = finish (createTranslationUnit E Context OutputName AllowBuiltinModule
            TUKind.Library).1
          (createTranslationUnit E Context OutputName AllowBuiltinModule TUKind.Library).2.1
          (pumpBody E ParseOnly BufferID none
            (pumpStart E Context World OutputName BufferID ParseOnly AllowBuiltinModule
              TUKind.Library))
          Outcome.returned := by
    rw [buildSingleTranslationUnit_single, hloop]
    simp
  have hfile : (parseFile E BufferID (autoImport E World
      (createTranslationUnit E Context OutputName AllowBuiltinModule TUKind.Library).2.2
      ParseOnly TUKind.Library)).BufferOffset = E.getBufferSize BufferID := by
    rw [parseFile_BufferOffset, ← hwhole]
    simp only [pumpStart]
  have hall : parseAllFiles E [BufferID] (autoImport E World
      (createTranslationUnit E Context OutputName AllowBuiltinModule TUKind.Library).2.2
      ParseOnly TUKind.Library)
      = (parseFile E BufferID (autoImport E World
          (createTranslationUnit E Context OutputName AllowBuiltinModule TUKind.Library).2.2
          ParseOnly TUKind.Library), true) := by
    simp only [parseAllFiles, hfile, if_true]
  refine ⟨hpump, ?_, ?_, ?_⟩
  · rw [hpump]
    simp only [buildBatch, ne_eq, not_true_eq_false, if_false, hall, Bool.true_eq_false]
    have hcur := hstart.2.2.2.1
    have hbo := hstart.2.2.1
    simp only [pumpStart] at hcur hbo
    cases ParseOnly
    · simp only [Bool.false_eq_true, if_false, finish, pumpBody, pumpStart, parseFile, hcur,
        hbo, defaultStartElem, List.append_assoc, List.singleton_append, List.cons_append,
        List.nil_append]
    · simp only [if_true, finish, pumpBody, pumpStart, parseFile, hbo, List.append_assoc,
        List.singleton_append]
  · rw [hpump]
    simp only [finish, pumpBody_parseCalls, hstart.1, hstart.2.2.1]
    simp
  · rw [hpump]
    cases ParseOnly
    · simp only [finish, pumpBody_checkCalls, pumpBody_TU, Bool.false_eq_true, if_false]
      rw [(pumpStart_facts E Context World OutputName BufferID false AllowBuiltinModule
        TUKind.Library).2.1, (pumpStart_facts E Context World OutputName BufferID false
        AllowBuiltinModule TUKind.Library).2.2.2.1,
        (pumpStart_facts E Context World OutputName BufferID false AllowBuiltinModule
          TUKind.Library).2.2.1]
      simp
    · simp only [finish, if_true]
      rw [pumpBody_checkCalls_parseOnly]
      exact (pumpStart_facts E Context World OutputName BufferID true AllowBuiltinModule
          TUKind.Library).2.1

/-- Witness of C19: an empty buffer, which the parser leaves at offset 0 in its first
call. -/
theorem buildSingleTranslationUnit_single_as_batch_witness :
    (0 < 1 ∧
      ((scripted (fun _ => 0) [100]).parseIntoTranslationUnit
        (pumpStart (scripted (fun _ => 0) [100]) emptyContext [] "a.swift" 0 false false
          TUKind.Library).World
        (pumpStart (scripted (fun _ => 0) [100]) emptyContext [] "a.swift" 0 false false
          TUKind.Library).TU 0 0 none).BufferOffset
        = (scripted (fun _ => 0) [100]).getBufferSize 0) ∧
    buildSingleTranslationUnit (scripted (fun _ => 0) [100]) 1 emptyContext [] "a.swift" [0]
        false false TUKind.Library none
      = buildBatch (scripted (fun _ => 0) [100]) emptyContext [] "a.swift" [0] false false
          TUKind.Library ∧
    (parseCalls (buildSingleTranslationUnit (scripted (fun _ => 0) [100]) 1 emptyContext []
        "a.swift" [0] false false TUKind.Library none).Trace).map
        (fun c => (c.BufferID, c.BufferOffset, c.SIL)) = [(0, 0, none)] :=
  ⟨⟨by decide, by decide⟩,
   (buildSingleTranslationUnit_single_as_batch (scripted (fun _ => 0) [100]) 1 emptyContext
     [] "a.swift" 0 false false (by decide) (by decide)).2.1,
   (buildSingleTranslationUnit_single_as_batch (scripted (fun _ => 0) [100]) 1 emptyContext
     [] "a.swift" 0 false false (by decide) (by decide)).2.2.1⟩

/-! ## Parse only -/

/-- The file loop makes no checker call. -/
theorem parseAllFiles_checkCalls {σ : Type} (E : Collaborators σ) :
    ∀ (ids : List Nat) (s : BuildState σ),
      checkCalls (parseAllFiles E ids s).1.Trace = checkCalls s.Trace := by
  intro ids
  induction ids with
  | nil => intro s; rfl
  | cons id ids ih =>
    intro s
    by_cases h : (parseFile E id s).BufferOffset = E.getBufferSize id
    · simp only [parseAllFiles, h, if_true]
      rw [ih, parseFile_checkCalls]
    · simp only [parseAllFiles, h, if_false]
      rw [parseFile_checkCalls]

/-- With `ParseOnly` the pump makes no checker call. -/
theorem pumpLoop_checkCalls_parseOnly {σ : Type} (E : Collaborators σ) (BufferID : Nat)
    (SIL : Option SILModule) (Size : Nat) : ∀ (fuel : Nat) (s : BuildState σ),
      checkCalls (pumpLoop E true BufferID SIL Size fuel s).1.Trace = checkCalls s.Trace := by
  intro fuel
  induction fuel with
  | zero => intro s; rfl
  | succ n ih =>
    intro s
    by_cases h : (pumpBody E true BufferID SIL s).BufferOffset = Size
    · simp only [pumpLoop, h, ne_eq, not_true_eq_false, if_false]
      rw [pumpBody_checkCalls_parseOnly]
    · simp only [pumpLoop, h, ne_eq, not_false_eq_true, if_true]
      rw [ih, pumpBody_checkCalls_parseOnly]

/-- With `ParseOnly` a call makes no checker call, whatever the buffers and the fuel. -/
theorem checkCalls_parseOnly {σ : Type} (E : Collaborators σ) (fuel : Nat)
    (Context : ASTContext) (World : σ) (OutputName : String) (BufferIDs : List Nat)
    (AllowBuiltinModule : Bool) (Kind : TUKind) (SIL : Option SILModule) :
    checkCalls (buildSingleTranslationUnit E fuel Context World OutputName BufferIDs true
      AllowBuiltinModule Kind SIL).Trace = [] := by
  have h0 : checkCalls (autoImport E World
      (createTranslationUnit E Context OutputName AllowBuiltinModule Kind).2.2 true
      Kind).Trace = [] := by
    simp [autoImport, checkCalls]
  unfold buildSingleTranslationUnit
  by_cases hmany : BufferIDs.length > 1
  · simp only [hmany, if_true]
    split_ifs
    · exact h0
    · simp only [finish]; rw [parseAllFiles_checkCalls]; exact h0
    · simp only [finish]; rw [parseAllFiles_checkCalls]; exact h0
  · simp only [hmany, if_false]
    split
    · split_ifs <;>
      · simp only [finish]
        rw [pumpLoop_checkCalls_parseOnly]
        simp only [checkCalls, List.filterMap_append] at h0 ⊢
        simp [h0, Event.asCheckCall]
    · exact h0

section ParseOnly

variable {σ : Type} (E : Collaborators σ) (R : σ → σ → Prop)

/-- One more parser call that appends the same declarations to both units leaves the
second unit the first with declarations in front. -/
theorem ImportsAhead.append {TU TU2 : TranslationUnit} (h : ImportsAhead TU TU2)
    (Added : List Decl) : ImportsAhead (TU.append Added) (TU2.append Added) := by
  obtain ⟨Imports, rfl⟩ := h
  exact ⟨Imports, by simp [TranslationUnit.append]⟩

/-- One iteration of the pump keeps a build with `ParseOnly` and one without in
agreement for the parser, when the checker does not disturb the relation between the
worlds and the parser gives the same answer in related worlds on units that differ by
declarations in front. -/
theorem pumpBody_sim
    (hcheck : ∀ w w2 TU k, R w w2 → R w (E.performTypeChecking w2 TU k))
    (hparse : ∀ w w2 TU TU2 b off sil, R w w2 → ImportsAhead TU TU2 →
      (E.parseIntoTranslationUnit w TU b off sil).Added
        = (E.parseIntoTranslationUnit w2 TU2 b off sil).Added ∧
      (E.parseIntoTranslationUnit w TU b off sil).BufferOffset
        = (E.parseIntoTranslationUnit w2 TU2 b off sil).BufferOffset ∧
      R (E.parseIntoTranslationUnit w TU b off sil).World
        (E.parseIntoTranslationUnit w2 TU2 b off sil).World)
    (BufferID : Nat) (SIL : Option SILModule) (s s2 : BuildState σ)
    (h : ParseSim R s s2) :
    ParseSim R (pumpBody E true BufferID SIL s) (pumpBody E false BufferID SIL s2) := by
  obtain ⟨hw, hu, ho, hc⟩ := h
  have hp := hparse s.World s2.World s.TU s2.TU BufferID s.BufferOffset SIL hw hu
  refine ⟨?_, ?_, ?_, ?_⟩
  · simp only [pumpBody, if_true, Bool.false_eq_true, if_false]
    rw [← ho]
    exact hcheck _ _ _ _ hp.2.2
  · rw [pumpBody_TU, pumpBody_TU, ← ho, ← hp.1]
    exact hu.append _
  · rw [pumpBody_BufferOffset, pumpBody_BufferOffset, ← ho]
    exact hp.2.1
  · rw [pumpBody_parseCalls, pumpBody_parseCalls, List.map_append, List.map_append, hc,
      ← ho]
    simp [ParseCall.signature, hp.1, hp.2.1]

/-- The pump, run with the same fuel, keeps the two builds in agreement and ends the
same way in both. -/
theorem pumpLoop_sim
    (hcheck : ∀ w w2 TU k, R w w2 → R w (E.performTypeChecking w2 TU k))
    (hparse : ∀ w w2 TU TU2 b off sil, R w w2 → ImportsAhead TU TU2 →
      (E.parseIntoTranslationUnit w TU b off sil).Added
        = (E.parseIntoTranslationUnit w2 TU2 b off sil).Added ∧
      (E.parseIntoTranslationUnit w TU b off sil).BufferOffset
        = (E.parseIntoTranslationUnit w2 TU2 b off sil).BufferOffset ∧
      R (E.parseIntoTranslationUnit w TU b off sil).World
        (E.parseIntoTranslationUnit w2 TU2 b off sil).World)
    (BufferID : Nat) (SIL : Option SILModule) (Size : Nat) :
    ∀ (fuel : Nat) (s s2 : BuildState σ), ParseSim R s s2 →
      (pumpLoop E true BufferID SIL Size fuel s).2
        = (pumpLoop E false BufferID SIL Size fuel s2).2 ∧
      ParseSim R (pumpLoop E true BufferID SIL Size fuel s).1
        (pumpLoop E false BufferID SIL Size fuel s2).1 := by
  intro fuel
  induction fuel with
  | zero => intro s s2 h; exact ⟨rfl, h⟩
  | succ n ih =>
    intro s s2 h
    have hb := pumpBody_sim E R hcheck hparse BufferID SIL s s2 h
    by_cases hoff : (pumpBody E true BufferID SIL s).BufferOffset = Size
    · have hoff2 : (pumpBody E false BufferID SIL s2).BufferOffset = Size := by
        rw [← hb.2.2.1]; exact hoff
      simp only [pumpLoop, hoff, hoff2, ne_eq, not_true_eq_false, if_false]
      exact ⟨trivial, hb⟩
    · have hoff2 : ¬ (pumpBody E false BufferID SIL s2).BufferOffset = Size := by
        rw [← hb.2.2.1]; exact hoff
      simp only [pumpLoop, hoff, hoff2, ne_eq, not_false_eq_true, if_true]
      exact ih _ _ hb

/-- The file loop keeps the two builds in agreement and ends the same way in both. -/
theorem parseAllFiles_sim
    (hparse : ∀ w w2 TU TU2 b off sil, R w w2 → ImportsAhead TU TU2 →
      (E.parseIntoTranslationUnit w TU b off sil).Added
        = (E.parseIntoTranslationUnit w2 TU2 b off sil).Added ∧
      (E.parseIntoTranslationUnit w TU b off sil).BufferOffset
        = (E.parseIntoTranslationUnit w2 TU2 b off sil).BufferOffset ∧
      R (E.parseIntoTranslationUnit w TU b off sil).World
        (E.parseIntoTranslationUnit w2 TU2 b off sil).World) :
    ∀ (ids : List Nat) (s s2 : BuildState σ), ParseSim R s s2 →
      (parseAllFiles E ids s).2 = (parseAllFiles E ids s2).2 ∧
      ParseSim R (parseAllFiles E ids s).1 (parseAllFiles E ids s2).1 := by
  intro ids
  induction ids with
  | nil => intro s s2 h; exact ⟨rfl, h⟩
  | cons id ids ih =>
    intro s s2 h
    obtain ⟨hw, hu, ho, hc⟩ := h
    have hp := hparse s.World s2.World s.TU s2.TU id 0 none hw hu
    have hb : ParseSim R (parseFile E id s) (parseFile E id s2) := by
      refine ⟨hp.2.2, ?_, hp.2.1, ?_⟩
      · have h1 : (parseFile E id s).TU
            = s.TU.append (E.parseIntoTranslationUnit s.World s.TU id 0 none).Added := rfl
        have h2 : (parseFile E id s2).TU
            = s2.TU.append (E.parseIntoTranslationUnit s2.World s2.TU id 0 none).Added := rfl
        rw [h1, h2, ← hp.1]
        exact hu.append _
      · rw [parseFile_parseCalls, parseFile_parseCalls, List.map_append, List.map_append, hc]
        simp [ParseCall.signature, hp.1, hp.2.1]
    by_cases hoff : (parseFile E id s).BufferOffset = E.getBufferSize id
    · have hoff2 : (parseFile E id s2).BufferOffset = E.getBufferSize id := by
        rw [← hb.2.2.1]; exact hoff
      simp only [parseAllFiles, hoff, hoff2, if_true]
      exact ih _ _ hb
    · have hoff2 : ¬ (parseFile E id s2).BufferOffset = E.getBufferSize id := by
        rw [← hb.2.2.1]; exact hoff
      simp only [parseAllFiles, hoff, hoff2, if_false]
      exact ⟨trivial, hb⟩

/-- The two builds enter their parse loop in agreement, when the unit has no
declaration yet and the auto-import does not disturb the relation between the
worlds. -/
theorem autoImport_sim (World : σ) (TU : TranslationUnit) (Kind : TUKind)
    (hempty : TU.Decls = []) (hrefl : R World World)
    (himport : ∀ w w2 TU, R w w2 → R w (E.performAutoImport w2 TU).1) :
    ParseSim R (autoImport E World TU true Kind) (autoImport E World TU false Kind) := by
  unfold autoImport
  by_cases hk : Kind = TUKind.SIL
  · simp only [hk, ne_eq, not_true_eq_false, false_and, if_false]
    exact ⟨hrefl, ⟨[], by simp⟩, rfl, rfl⟩
  · simp only [hk, ne_eq, not_false_eq_true, true_and, Bool.true_eq_false, if_false, if_true]
    exact ⟨himport _ _ _ hrefl,
      ⟨(E.performAutoImport World TU).2, by simp [TranslationUnit.append, hempty]⟩, rfl,
      by simp [parseCalls, Event.asParseCall]⟩

end ParseOnly

/-- C15, as the code has it: with `ParseOnly` a call makes no checker call, whatever the
collaborators, the buffers and the fuel. Its parser calls are those of the same call
without `ParseOnly` (same buffers, start offsets, SIL states, appended declarations and
end offsets, and the same outcome) when what the parser appends and where it stops do
not depend on what auto-import and the checker did: there is a relation `R` between
worlds, holding of the initial world and itself, that auto-import and the checker keep
when run on the second world, and under which the parser gives the same answer and
related worlds on any two units of which the second is the first with declarations in
front (the units have the same name, component, kind and flag, so the parser may read
those). -/
theorem buildSingleTranslationUnit_parseOnly {σ : Type} (E : Collaborators σ)
    (fuel : Nat) (Context : ASTContext) (World : σ) (OutputName : String)
    (BufferIDs : List Nat) (AllowBuiltinModule : Bool) (Kind : TUKind)
    (SIL : Option SILModule) :
    checkCalls (buildSingleTranslationUnit E fuel Context World OutputName BufferIDs true
        AllowBuiltinModule Kind SIL).Trace = [] ∧
    ∀ R : σ → σ → Prop, R World World →
      (∀ w w2 TU, R w w2 → R w (E.performAutoImport w2 TU).1) →
      (∀ w w2 TU k, R w w2 → R w (E.performTypeChecking w2 TU k)) →
      (∀ w w2 TU TU2 b off sil, R w w2 → ImportsAhead TU TU2 →
        (E.parseIntoTranslationUnit w TU b off sil).Added
          = (E.parseIntoTranslationUnit w2 TU2 b off sil).Added ∧
        (E.parseIntoTranslationUnit w TU b off sil).BufferOffset
          = (E.parseIntoTranslationUnit w2 TU2 b off sil).BufferOffset ∧
        R (E.parseIntoTranslationUnit w TU b off sil).World
          (E.parseIntoTranslationUnit w2 TU2 b off sil).World) →
      (parseCalls (buildSingleTranslationUnit E fuel Context World OutputName BufferIDs
          true AllowBuiltinModule Kind SIL).Trace).map ParseCall.signature
        = (parseCalls (buildSingleTranslationUnit E fuel Context World OutputName BufferIDs
          false AllowBuiltinModule Kind SIL).Trace).map ParseCall.signature ∧
      (buildSingleTranslationUnit E fuel Context World OutputName BufferIDs true
          AllowBuiltinModule Kind SIL).Ret
        = (buildSingleTranslationUnit E fuel Context World OutputName BufferIDs false
          AllowBuiltinModule Kind SIL).Ret := by
  refine ⟨checkCalls_parseOnly E fuel Context World OutputName BufferIDs AllowBuiltinModule
    Kind SIL, ?_⟩
  intro R hrefl himport hcheck hparse
  have hempty : (createTranslationUnit E Context OutputName AllowBuiltinModule
      Kind).2.2.Decls = [] := by
    rw [(createTranslationUnit_facts E Context OutputName AllowBuiltinModule Kind).2.2.2.2]
  have h0 := autoImport_sim E R World
    (createTranslationUnit E Context OutputName AllowBuiltinModule Kind).2.2 Kind hempty
    hrefl himport
  match BufferIDs with
  | [] =>
    simp only [buildSingleTranslationUnit, List.length_nil, gt_iff_lt, Nat.not_lt_zero,
      if_false, finish]
    exact ⟨h0.2.2.2, trivial⟩
  | [BufferID] =>
    rw [buildSingleTranslationUnit_single, buildSingleTranslationUnit_single]
    have h1 : ParseSim R
        (pumpStart E Context World OutputName BufferID true AllowBuiltinModule Kind)
        (pumpStart E Context World OutputName BufferID false AllowBuiltinModule Kind) := by
      refine ⟨h0.1, h0.2.1, h0.2.2.1, ?_⟩
      have := h0.2.2.2
      simp only [pumpStart, parseCalls, List.filterMap_append] at this ⊢
      simp [this, Event.asParseCall]
    have hl := pumpLoop_sim E R hcheck hparse BufferID SIL (E.getBufferSize BufferID) fuel
      _ _ h1
    simp only [finish]
    exact ⟨hl.2.2.2.2, by rw [hl.1]⟩
  | b1 :: b2 :: rest =>
    have hmany : (b1 :: b2 :: rest).length > 1 := by simp
    by_cases hkind : Kind = TUKind.Library
    · subst hkind
      rw [buildSingleTranslationUnit_batch E fuel Context World OutputName _ true
          AllowBuiltinModule SIL hmany,
        buildSingleTranslationUnit_batch E fuel Context World OutputName _ false
          AllowBuiltinModule SIL hmany]
      have hl := parseAllFiles_sim E R hparse (b1 :: b2 :: rest) _ _ h0
      simp only [Bool.false_eq_true, if_false, if_true]
      by_cases hb : (parseAllFiles E (b1 :: b2 :: rest) (autoImport E World
          (createTranslationUnit E Context OutputName AllowBuiltinModule TUKind.Library).2.2
          false TUKind.Library)).2 = false
      · have hb1 := hb
        rw [← hl.1] at hb1
        simp only [hb, hb1, if_true, finish]
        exact ⟨hl.2.2.2.2, trivial⟩
      · have hb1 := hb
        rw [← hl.1] at hb1
        simp only [hb, hb1, Bool.true_eq_false, if_false, finish,
          (trace_append_check _ _).1]
        exact ⟨hl.2.2.2.2, trivial⟩
    · simp only [buildSingleTranslationUnit, hmany, if_true, hkind, ne_eq, not_false_eq_true,
        finish]
      exact ⟨h0.2.2.2, trivial⟩

/-- Witness of C15: a parser that reads the kind of the unit and stops early only in a
`Main` unit, with the relation that holds of all worlds. On a five-byte buffer of kind
`Main`, after an auto-import that appended one declaration, the parser is called three
times, from offsets 0, 2 and 4, with `ParseOnly` and without. -/
theorem buildSingleTranslationUnit_parseOnly_witness :
    (∀ (w w2 : Unit) (TU TU2 : TranslationUnit) (b off : Nat) (sil : Option SILModule),
      True → ImportsAhead TU TU2 →
      ((kindAware (fun _ => 5) [100]).parseIntoTranslationUnit w TU b off sil).Added
        = ((kindAware (fun _ => 5) [100]).parseIntoTranslationUnit w2 TU2 b off sil).Added ∧
      ((kindAware (fun _ => 5) [100]).parseIntoTranslationUnit w TU b off sil).BufferOffset
        = ((kindAware (fun _ => 5) [100]).parseIntoTranslationUnit w2 TU2 b off
            sil).BufferOffset ∧
      True) ∧
    ((parseCalls (buildSingleTranslationUnit (kindAware (fun _ => 5) [100]) 6 emptyContext ()
        "a.swift" [0] true false TUKind.Main none).Trace).map ParseCall.signature
      = (parseCalls (buildSingleTranslationUnit (kindAware (fun _ => 5) [100]) 6
        emptyContext () "a.swift" [0] false false TUKind.Main none).Trace).map
        ParseCall.signature ∧
    (buildSingleTranslationUnit (kindAware (fun _ => 5) [100]) 6 emptyContext () "a.swift"
        [0] true false TUKind.Main none).Ret
      = (buildSingleTranslationUnit (kindAware (fun _ => 5) [100]) 6 emptyContext ()
        "a.swift" [0] false false TUKind.Main none).Ret) ∧
    (parseCalls (buildSingleTranslationUnit (kindAware (fun _ => 5) [100]) 6 emptyContext ()
        "a.swift" [0] false false TUKind.Main none).Trace).map ParseCall.signature
      = [(0, 0, none, [0], 2), (0, 2, none, [2], 4), (0, 4, none, [4], 5)] :=
  ⟨fun _ _ _ _ _ _ _ _ h => by
      obtain ⟨Imports, rfl⟩ := h
      exact ⟨by simp [kindAware], by simp [kindAware], trivial⟩,
   (buildSingleTranslationUnit_parseOnly (kindAware (fun _ => 5) [100]) 6 emptyContext ()
     "a.swift" [0] false TUKind.Main none).2 (fun _ _ => True) trivial
     (fun _ _ _ _ => trivial) (fun _ _ _ _ _ => trivial)
     (fun _ _ _ _ _ _ _ _ h => by
      obtain ⟨Imports, rfl⟩ := h
      exact ⟨by simp [kindAware], by simp [kindAware], trivial⟩),
   by decide⟩

/-- Counterexample to C15 as stated: kind `Main`, one four-byte buffer, and a parser
that takes smaller steps once declarations have been checked. With `ParseOnly` the
parser is called twice, from offsets 0 and 2; without it the parser is called three
times, from offsets 0, 2 and 3. Both calls return. -/
theorem parseOnly_changes_parser_calls_counterexample :
    (buildSingleTranslationUnit (checkAware (fun _ => 4)) 5 emptyContext 0 "a.swift" [0]
        true false TUKind.Main none).Ret = Outcome.returned ∧
    (buildSingleTranslationUnit (checkAware (fun _ => 4)) 5 emptyContext 0 "a.swift" [0]
        false false TUKind.Main none).Ret = Outcome.returned ∧
    (parseCalls (buildSingleTranslationUnit (checkAware (fun _ => 4)) 5 emptyContext 0
        "a.swift" [0] true false TUKind.Main none).Trace).map ParseCall.signature
      = [(0, 0, none, [1], 2), (0, 2, none, [2], 4)] ∧
    (parseCalls (buildSingleTranslationUnit (checkAware (fun _ => 4)) 5 emptyContext 0
        "a.swift" [0] false false TUKind.Main none).Trace).map ParseCall.signature
      = [(0, 0, none, [1], 2), (0, 2, none, [2], 3), (0, 3, none, [2], 4)] :=
  ⟨by decide, by decide, by decide, by decide⟩

end swift
